import Mathlib

/-!
Verification of the OpenSimTelemetry core against its specification.

This file shallowly embeds the relevant Rust source files
(`ost-adapters/src/ibt_parser.rs`, `ost-core/src/model.rs`,
`ost-core/src/units.rs`, `ost-server/src/replay.rs`,
`ost-server/src/api.rs`) into Lean and proves the spec's testable
properties about the embedding.

Modelling conventions:
- A file's contents are a `List Nat` of byte values; Rust's positional
  `seek` + `read_exact` pair is `readExact`.
- Machine integers are `Int`/`Nat` with explicit two's-complement casts
  where the Rust code casts (`as u64`, `as usize`, `as u32`).
- `f32`/`f64` are modelled as `ℚ` (finite IEEE values decode exactly;
  NaN/Inf are outside the rational model and decode to 0 — no claim
  settled here depends on a sample containing such bit patterns).
- `HashMap<String, V>` is an association list with single-binding insert.
- Fallible Rust functions return `Except IbtError _`; the source uses
  untyped `anyhow` errors with distinct messages per failure site, which
  the model represents as distinct constructors.
-/

set_option maxRecDepth 8000

/-- Error cases of the `.ibt` parser. The source raises `anyhow` errors;
the constructors mirror the distinct failure sites: out-of-range sample
index, a short/failed positional read (`std::io` `UnexpectedEof`), and an
unknown variable type code (`VarType::from_i32`). -/
inductive IbtError
  | outOfRange
  | ioError
  | unknownVarType (code : Int)
deriving DecidableEq, Repr

/-- Little-endian value of a byte list (byte 0 least significant). -/
def leVal (bs : List Nat) : Nat := bs.foldr (fun b acc => b + 256 * acc) 0

/-- Decode 4 little-endian bytes as `i32` (two's complement). -/
def i32OfLe (bs : List Nat) : Int :=
  let u : Nat := leVal bs % 2 ^ 32
  if u < 2 ^ 31 then (u : Int) else (u : Int) - 2 ^ 32

/-- Decode 8 little-endian bytes as `i64` (two's complement). -/
def i64OfLe (bs : List Nat) : Int :=
  let u : Nat := leVal bs % 2 ^ 64
  if u < 2 ^ 63 then (u : Int) else (u : Int) - 2 ^ 64

/-- Decode 4 little-endian bytes as `u32`. -/
def u32OfLe (bs : List Nat) : Nat := leVal bs % 2 ^ 32

/-- Rust `v as u64` / `v as usize` on a 64-bit host for a signed value:
two's-complement reinterpretation (sign extension for `i32`). -/
def usizeOfInt (v : Int) : Nat := (v % 2 ^ 64).toNat

/-- Rust `v as u32` for a signed value: two's-complement reinterpretation. -/
def u32OfInt (v : Int) : Nat := (v % 2 ^ 32).toNat

/-- Rust `f32::from_le_bytes`: IEEE-754 binary32 decoded into `ℚ`.
NaN/Inf (exponent 255) are outside the rational model and map to 0. -/
def decodeF32 (bs : List Nat) : ℚ :=
  let bits : Nat := leVal bs % 2 ^ 32
  let sign : Nat := bits / 2 ^ 31
  let expo : Nat := bits / 2 ^ 23 % 2 ^ 8
  let frac : Nat := bits % 2 ^ 23
  let mag : ℚ :=
    if expo = 0 then (frac : ℚ) / 2 ^ 149
    else if expo = 255 then 0
    else ((2 ^ 23 + frac : ℚ) / 2 ^ 23) * (2 : ℚ) ^ ((expo : ℤ) - 127)
  if sign = 1 then -mag else mag

/-- Rust `f64::from_le_bytes`: IEEE-754 binary64 decoded into `ℚ`.
NaN/Inf (exponent 2047) are outside the rational model and map to 0. -/
def decodeF64 (bs : List Nat) : ℚ :=
  let bits : Nat := leVal bs % 2 ^ 64
  let sign : Nat := bits / 2 ^ 63
  let expo : Nat := bits / 2 ^ 52 % 2 ^ 11
  let frac : Nat := bits % 2 ^ 52
  let mag : ℚ :=
    if expo = 0 then (frac : ℚ) / 2 ^ 1074
    else if expo = 2047 then 0
    else ((2 ^ 52 + frac : ℚ) / 2 ^ 52) * (2 : ℚ) ^ ((expo : ℤ) - 1023)
  if sign = 1 then -mag else mag

/-- Byte-slice `buf[a..b]`. -/
def byteSlice (l : List Nat) (a b : Nat) : List Nat := (l.drop a).take (b - a)

/-- Rust positional read: `seek(SeekFrom::Start(off))` followed by
`read_exact` of a `len`-byte buffer. A zero-length `read_exact` always
succeeds; otherwise the read fails iff the file ends before
`off + len`. -/
def readExact (bytes : List Nat) (off len : Nat) : Option (List Nat) :=
  if len = 0 then some []
  else if off + len ≤ bytes.length then some ((bytes.drop off).take len)
  else none

/-!
Kernel-computable character-list implementations of the string operations
the embedded code uses. The corresponding `String` library functions are
byte-position loops that do not reduce definitionally; these versions
agree with them (and with the Rust operations they model) on the inputs
that occur here.
-/

/-- Model of `str::is_empty`. -/
def strIsEmpty (s : String) : Bool := s.data.isEmpty

/-- Model of `str::starts_with` for a literal pattern. -/
def strStartsWith (s pat : String) : Bool := pat.data.isPrefixOf s.data

/-- Model of `str::ends_with` for a literal pattern. -/
def strEndsWith (s pat : String) : Bool := pat.data.reverse.isPrefixOf s.data.reverse

/-- Drop the first `n` characters. -/
def strDrop (s : String) (n : Nat) : String := String.mk (s.data.drop n)

/-- Drop the last `n` characters. -/
def strDropRight (s : String) (n : Nat) : String :=
  String.mk (s.data.take (s.data.length - n))

/-- Model of `str::trim`: strip whitespace from both ends. -/
def strTrim (s : String) : String :=
  String.mk (((s.data.dropWhile Char.isWhitespace).reverse.dropWhile
    Char.isWhitespace).reverse)

/-- Model of `str::to_lowercase` (ASCII model). -/
def strLower (s : String) : String := String.mk (s.data.map Char.toLower)

/-- Split a character list at every occurrence of `c`. -/
def listSplit (c : Char) : List Char → List (List Char)
  | [] => [[]]
  | x :: xs =>
      if x = c then [] :: listSplit c xs
      else
        match listSplit c xs with
        | [] => [[x]]
        | h :: t => (x :: h) :: t

/-- Split on a single-character separator (`str::split` / `splitOn`). -/
def splitOnChar (c : Char) (s : String) : List String :=
  (listSplit c s.data).map String.mk

/-- Model of `read_null_terminated_string`: bytes up to the first NUL, decoded as
text (ASCII model of `String::from_utf8_lossy`). -/
def read_null_terminated_string (bs : List Nat) : String :=
  String.mk ((bs.takeWhile (fun b => b ≠ 0)).map Char.ofNat)

-- ===========================================================================
-- ibt_parser.rs: binary format types
-- ===========================================================================

/-- Model of `VarType`: variable data types in `.ibt` files. -/
inductive VarType
  | char
  | bool
  | int
  | bitField
  | float
  | double
deriving DecidableEq, Repr

/-- Model of `VarType::from_i32`. -/
def VarType.from_i32 (val : Int) : Except IbtError VarType :=
  match val with
  | 0 => .ok .char
  | 1 => .ok .bool
  | 2 => .ok .int
  | 3 => .ok .bitField
  | 4 => .ok .float
  | 5 => .ok .double
  | _ => .error (.unknownVarType val)

/-- Model of `VarType::element_size`. -/
def VarType.element_size : VarType → Nat
  | .char => 1
  | .bool => 1
  | .int => 4
  | .bitField => 4
  | .float => 4
  | .double => 8

/-- Model of `VarValue`: a parsed variable value from a sample. -/
inductive VarValue
  | char (v : Nat)
  | bool (v : Bool)
  | int (v : Int)
  | bitField (v : Nat)
  | float (v : ℚ)
  | double (v : ℚ)
  | charArray (v : List Nat)
  | intArray (v : List Int)
  | floatArray (v : List ℚ)
  | doubleArray (v : List ℚ)
deriving DecidableEq, Repr

/-- Rust `q as i32` for a float value: truncation toward zero, saturating
at the `i32` range. -/
def floatAsI32 (q : ℚ) : Int :=
  max (-(2 ^ 31)) (min (2 ^ 31 - 1) (q.num / (q.den : Int)))

/-- Model of `VarValue::as_f32` (the `f64`-to-`f32` narrowing is exact in the
rational model). -/
def VarValue.as_f32 : VarValue → Option ℚ
  | .float v => some v
  | .double v => some v
  | .int v => some (v : ℚ)
  | .bool v => some (if v then 1 else 0)
  | _ => none

/-- Model of `VarValue::as_f64`. -/
def VarValue.as_f64 : VarValue → Option ℚ
  | .double v => some v
  | .float v => some v
  | .int v => some (v : ℚ)
  | _ => none

/-- Model of `VarValue::as_i32`. -/
def VarValue.as_i32 : VarValue → Option Int
  | .int v => some v
  | .bitField v => some (if v < 2 ^ 31 then (v : Int) else (v : Int) - 2 ^ 32)
  | .float v => some (floatAsI32 v)
  | .bool v => some (if v then 1 else 0)
  | _ => none

/-- Model of `VarValue::as_bool`. -/
def VarValue.as_bool : VarValue → Option Bool
  | .bool v => some v
  | .int v => some (v ≠ 0)
  | _ => none

/-- Model of `VarValue::as_u32`. -/
def VarValue.as_u32 : VarValue → Option Nat
  | .bitField v => some v
  | .int v => some (u32OfInt v)
  | _ => none

/-- Model of `IbtHeader`: main `.ibt` file header (48 bytes at offset 0). -/
structure IbtHeader where
  ver : Int
  status : Int
  tick_rate : Int
  session_info_update : Int
  session_info_len : Int
  session_info_offset : Int
  num_vars : Int
  var_header_offset : Int
  num_buf : Int
  buf_len : Int
deriving DecidableEq, Repr

/-- Model of `VarBuf`: variable buffer descriptor (16 bytes at offset 48). -/
structure VarBuf where
  tick_count : Int
  buf_offset : Int
deriving DecidableEq, Repr

/-- Model of `DiskSubHeader` (32 bytes at offset 112). -/
structure DiskSubHeader where
  session_start_date : Int
  session_start_time : ℚ
  session_end_time : ℚ
  session_lap_count : Int
  session_record_count : Int
deriving DecidableEq, Repr

/-- Model of `VarHeader`: a single variable header (144 bytes each). -/
structure VarHeader where
  var_type : VarType
  offset : Int
  count : Int
  count_as_time : Bool
  name : String
  desc : String
  unit : String
deriving DecidableEq, Repr

/-- Model of `IbtSessionInfo`: key session info extracted from the YAML string. -/
structure IbtSessionInfo where
  track_name : String
  track_display_name : String
  track_config_name : String
  track_length : String
  car_name : String
  car_screen_name : String
  driver_name : String
  driver_car_idx : Int
  session_type : String
deriving DecidableEq, Repr

/-- Model of `IbtSessionInfo::default()`. -/
def IbtSessionInfo.default : IbtSessionInfo :=
  { track_name := "", track_display_name := "", track_config_name := ""
    track_length := "", car_name := "", car_screen_name := ""
    driver_name := "", driver_car_idx := 0, session_type := "" }

/-- Model of `try_extract_yaml_value`. -/
def try_extract_yaml_value (line key : String) : Option String :=
  if strStartsWith line key then some (strTrim (strDrop line key.length)) else none

/-- Rust `str::lines`: split on newline, dropping one trailing carriage
return per line. -/
def rustLines (s : String) : List String :=
  (splitOnChar '\n' s).map (fun l => if strEndsWith l "\r" then strDropRight l 1 else l)

/-- One line of `IbtSessionInfo::from_yaml`'s loop. -/
def fromYamlStep (info : IbtSessionInfo) (line : String) : IbtSessionInfo :=
  let trimmed := strTrim line
  match try_extract_yaml_value trimmed "TrackName:" with
  | some val => { info with track_name := val }
  | none =>
  match try_extract_yaml_value trimmed "TrackDisplayName:" with
  | some val => { info with track_display_name := val }
  | none =>
  match try_extract_yaml_value trimmed "TrackConfigName:" with
  | some val => { info with track_config_name := val }
  | none =>
  match try_extract_yaml_value trimmed "TrackLength:" with
  | some val => { info with track_length := val }
  | none =>
  match try_extract_yaml_value trimmed "CarScreenName:" with
  | some val =>
      if strIsEmpty info.car_screen_name then { info with car_screen_name := val } else info
  | none =>
  match try_extract_yaml_value trimmed "UserName:" with
  | some val =>
      if strIsEmpty info.driver_name then { info with driver_name := val } else info
  | none =>
  match try_extract_yaml_value trimmed "DriverCarIdx:" with
  | some val =>
      match val.toInt? with
      | some idx => { info with driver_car_idx := idx }
      | none => info
  | none =>
  match try_extract_yaml_value trimmed "SessionType:" with
  | some val =>
      if strIsEmpty info.session_type then { info with session_type := val } else info
  | none => info

/-- Model of `IbtSessionInfo::from_yaml` (always `Ok` in the source). -/
def IbtSessionInfo.from_yaml (yaml : String) : IbtSessionInfo :=
  let info := (rustLines yaml).foldl fromYamlStep IbtSessionInfo.default
  let info :=
    if strIsEmpty info.track_display_name then
      { info with track_display_name := info.track_name }
    else info
  { info with car_name := info.car_screen_name }

-- ===========================================================================
-- ibt_parser.rs: IbtFile
-- ===========================================================================

/-- Model of `IbtFile`: parsed `.ibt` file handle. The open `File` is modelled by
keeping the file's bytes; the derived `var_index` lookup is dead code in
the source and omitted. -/
structure IbtFile where
  bytes : List Nat
  header : IbtHeader
  disk_sub_header : DiskSubHeader
  var_headers : List VarHeader
  session_info_yaml : String
  session_info : IbtSessionInfo
  sample_data_offset : Nat
  file_size : Nat
deriving DecidableEq, Repr

/-- Model of `IbtFile::read_header`. -/
def read_header (file : List Nat) : Except IbtError IbtHeader :=
  match readExact file 0 48 with
  | none => .error .ioError
  | some buf => .ok
      { ver := i32OfLe (byteSlice buf 0 4)
        status := i32OfLe (byteSlice buf 4 8)
        tick_rate := i32OfLe (byteSlice buf 8 12)
        session_info_update := i32OfLe (byteSlice buf 12 16)
        session_info_len := i32OfLe (byteSlice buf 16 20)
        session_info_offset := i32OfLe (byteSlice buf 20 24)
        num_vars := i32OfLe (byteSlice buf 24 28)
        var_header_offset := i32OfLe (byteSlice buf 28 32)
        num_buf := i32OfLe (byteSlice buf 32 36)
        buf_len := i32OfLe (byteSlice buf 36 40) }

/-- Model of `IbtFile::read_var_buf` (after a seek to offset 48). -/
def read_var_buf (file : List Nat) : Except IbtError VarBuf :=
  match readExact file 48 16 with
  | none => .error .ioError
  | some buf => .ok
      { tick_count := i32OfLe (byteSlice buf 0 4)
        buf_offset := i32OfLe (byteSlice buf 4 8) }

/-- Model of `IbtFile::read_disk_sub_header` (after a seek to offset 112). -/
def read_disk_sub_header (file : List Nat) : Except IbtError DiskSubHeader :=
  match readExact file 112 32 with
  | none => .error .ioError
  | some buf => .ok
      { session_start_date := i64OfLe (byteSlice buf 0 8)
        session_start_time := decodeF64 (byteSlice buf 8 16)
        session_end_time := decodeF64 (byteSlice buf 16 24)
        session_lap_count := i32OfLe (byteSlice buf 24 28)
        session_record_count := i32OfLe (byteSlice buf 28 32) }

/-- Model of `IbtFile::read_var_headers`: sequential 144-byte reads starting at
`base`; `i` counts entries already read, the second `Nat` the entries
still to read. -/
def read_var_headers_from (file : List Nat) (base : Nat) :
    Nat → Nat → Except IbtError (List VarHeader)
  | _, 0 => .ok []
  | i, k + 1 => do
    match readExact file (base + 144 * i) 144 with
    | none => .error .ioError
    | some buf => do
      let vt ← VarType.from_i32 (i32OfLe (byteSlice buf 0 4))
      let rest ← read_var_headers_from file base (i + 1) k
      .ok ({ var_type := vt
             offset := i32OfLe (byteSlice buf 4 8)
             count := i32OfLe (byteSlice buf 8 12)
             count_as_time := buf.getD 12 0 ≠ 0
             name := read_null_terminated_string (byteSlice buf 16 48)
             desc := read_null_terminated_string (byteSlice buf 48 112)
             unit := read_null_terminated_string (byteSlice buf 112 144) } :: rest)

/-- Model of `IbtFile::open` (named `openFile` because `open` is a Lean keyword):
reads header, first buffer descriptor, disk sub-header, variable table and
the session-info YAML blob. There is no version check. -/
def IbtFile.openFile (bytes : List Nat) : Except IbtError IbtFile := do
  let file_size := bytes.length
  let header ← read_header bytes
  let var_buf ← read_var_buf bytes
  let disk_sub_header ← read_disk_sub_header bytes
  let var_headers ←
    read_var_headers_from bytes (usizeOfInt header.var_header_offset) 0
      (usizeOfInt header.num_vars)
  match readExact bytes (usizeOfInt header.session_info_offset)
      (usizeOfInt header.session_info_len) with
  | none => .error .ioError
  | some yaml_buf =>
    let session_info_yaml := read_null_terminated_string yaml_buf
    let session_info := IbtSessionInfo.from_yaml session_info_yaml
    .ok { bytes := bytes
          header := header
          disk_sub_header := disk_sub_header
          var_headers := var_headers
          session_info_yaml := session_info_yaml
          session_info := session_info
          sample_data_offset := usizeOfInt var_buf.buf_offset
          file_size := file_size }

/-- Model of `IbtFile::record_count` (`session_record_count as usize`). -/
def IbtFile.record_count (f : IbtFile) : Nat :=
  usizeOfInt f.disk_sub_header.session_record_count

/-- Model of `IbtFile::tick_rate` (`tick_rate as u32`). -/
def IbtFile.tick_rate (f : IbtFile) : Nat := u32OfInt f.header.tick_rate

/-- Model of `IbtFile::duration_secs`. -/
def IbtFile.duration_secs (f : IbtFile) : ℚ :=
  f.disk_sub_header.session_end_time - f.disk_sub_header.session_start_time

/-- Model of `read_scalar_value`. -/
def read_scalar_value (buf : List Nat) (offset : Nat) : VarType → Option VarValue
  | .char =>
      if offset < buf.length then some (.char (buf.getD offset 0)) else none
  | .bool =>
      if offset < buf.length then some (.bool (buf.getD offset 0 ≠ 0)) else none
  | .int =>
      if offset + 4 ≤ buf.length then some (.int (i32OfLe (byteSlice buf offset (offset + 4))))
      else none
  | .bitField =>
      if offset + 4 ≤ buf.length then
        some (.bitField (u32OfLe (byteSlice buf offset (offset + 4))))
      else none
  | .float =>
      if offset + 4 ≤ buf.length then
        some (.float (decodeF32 (byteSlice buf offset (offset + 4))))
      else none
  | .double =>
      if offset + 8 ≤ buf.length then
        some (.double (decodeF64 (byteSlice buf offset (offset + 8))))
      else none

/-- Model of `read_array_value`. Out-of-range elements are skipped inside the
loops, exactly as in the source. -/
def read_array_value (buf : List Nat) (offset : Nat) (vt : VarType) (count : Nat) :
    Option VarValue :=
  match vt with
  | .char | .bool =>
      if offset + count ≤ buf.length then
        some (.charArray (byteSlice buf offset (offset + count)))
      else none
  | .int | .bitField =>
      some (.intArray ((List.range count).filterMap (fun i =>
        let off := offset + i * 4
        if off + 4 ≤ buf.length then some (i32OfLe (byteSlice buf off (off + 4))) else none)))
  | .float =>
      some (.floatArray ((List.range count).filterMap (fun i =>
        let off := offset + i * 4
        if off + 4 ≤ buf.length then some (decodeF32 (byteSlice buf off (off + 4))) else none)))
  | .double =>
      some (.doubleArray ((List.range count).filterMap (fun i =>
        let off := offset + i * 8
        if off + 8 ≤ buf.length then some (decodeF64 (byteSlice buf off (off + 8))) else none)))

/-- Model of `HashMap<String, V>`: an association list in which
`mapInsert` keeps a single binding per key. -/
def mapInsert {α : Type} (m : List (String × α)) (k : String) (v : α) :
    List (String × α) :=
  m.filter (fun p => p.1 ≠ k) ++ [(k, v)]

/-- Model of `HashMap::get`. -/
def mapGet {α : Type} (m : List (String × α)) (k : String) : Option α :=
  (m.find? (fun p => p.1 = k)).map (·.2)

/-- A decoded sample: `HashMap<String, VarValue>`. -/
abbrev SampleMap := List (String × VarValue)

/-- The per-sample decode loop over the variable table. This loop appears
verbatim in both `read_sample` and `read_samples_range` in the source; it
is modelled once and used by both. -/
def decode_sample_vars (frame_buf : List Nat) (vhs : List VarHeader) : SampleMap :=
  vhs.foldl (fun result vh =>
    let var_offset := usizeOfInt vh.offset
    let count := usizeOfInt vh.count
    let endPos := var_offset + count * vh.var_type.element_size
    if endPos > frame_buf.length then result
    else
      let value :=
        if count = 1 then read_scalar_value frame_buf var_offset vh.var_type
        else read_array_value frame_buf var_offset vh.var_type count
      match value with
      | some v => mapInsert result vh.name v
      | none => result) []

/-- Model of `IbtFile::read_sample`. -/
def IbtFile.read_sample (f : IbtFile) (index : Nat) : Except IbtError SampleMap :=
  let record_count := f.record_count
  if index ≥ record_count then .error .outOfRange
  else
    let buf_len := usizeOfInt f.header.buf_len
    let offset := f.sample_data_offset + index * buf_len
    match readExact f.bytes offset buf_len with
    | none => .error .ioError
    | some sample_buf => .ok (decode_sample_vars sample_buf f.var_headers)

/-- Model of `IbtFile::read_samples_range`. -/
def IbtFile.read_samples_range (f : IbtFile) (start count : Nat) :
    Except IbtError (List SampleMap) :=
  let record_count := f.record_count
  if start ≥ record_count then .error .outOfRange
  else
    let clamped_count := min count (record_count - start)
    if clamped_count = 0 then .ok []
    else
      let buf_len := usizeOfInt f.header.buf_len
      let offset := f.sample_data_offset + start * buf_len
      let total_bytes := buf_len * clamped_count
      match readExact f.bytes offset total_bytes with
      | none => .error .ioError
      | some bulk_buf =>
        .ok ((List.range clamped_count).map (fun i =>
          decode_sample_vars ((bulk_buf.drop (i * buf_len)).take buf_len) f.var_headers))

-- ===========================================================================
-- units.rs
-- ===========================================================================

/-- Model of `Percentage::new`: clamp to `[0, 1]` (`f32::clamp(0.0, 1.0)` on finite
values). The sole constructor used for percentage-typed fields. -/
def Percentage.new (value : ℚ) : ℚ :=
  if value < 0 then 0 else if value > 1 then 1 else value

/-- Model of `GForce::from_acceleration`: divide by `G = 9.81`. -/
def GForce.from_acceleration (accel : ℚ) : ℚ := accel / (981 / 100)

-- ===========================================================================
-- model.rs: domain model
-- ===========================================================================

/-- Model of `Vector3<T>` (named `Vec3`; Mathlib already declares `Vector3`). -/
structure Vec3 (α : Type) where
  x : α
  y : α
  z : α
deriving DecidableEq, Repr

/-- Model of `TrackSurface`. -/
inductive TrackSurface
  | notInWorld | undefined | asphalt | concrete | racingDirt | paint
  | rumble | grass | dirt | sand | gravel | grasscrete | astroturf | unknown
deriving DecidableEq, Repr

/-- Model of `SessionType`. -/
inductive SessionType
  | practice | qualifying | race | hotlap | timeTrial | drift | warmup | other
deriving DecidableEq, Repr

/-- Model of `SessionState`. -/
inductive SessionState
  | invalid | getInCar | warmup | paradeLaps | racing | checkered | cooldown
deriving DecidableEq, Repr

/-- Model of `SessionState::from_iracing`. -/
def SessionState.from_iracing (value : Int) : SessionState :=
  match value with
  | 1 => .getInCar
  | 2 => .warmup
  | 3 => .paradeLaps
  | 4 => .racing
  | 5 => .checkered
  | 6 => .cooldown
  | _ => .invalid

/-- Model of `TrackWetness`. -/
inductive TrackWetness
  | dry | slightlyWet | wet | veryWet | flooded | unknown
deriving DecidableEq, Repr

/-- Model of `EngineWarnings`. -/
structure EngineWarnings where
  water_temp_high : Bool
  fuel_pressure_low : Bool
  oil_pressure_low : Bool
  engine_stalled : Bool
  pit_speed_limiter : Bool
  rev_limiter : Bool
deriving DecidableEq, Repr

/-- Model of `EngineWarnings::from_iracing_bits`. -/
def EngineWarnings.from_iracing_bits (bits : Nat) : EngineWarnings :=
  { water_temp_high := bits &&& 0x01 ≠ 0
    fuel_pressure_low := bits &&& 0x02 ≠ 0
    oil_pressure_low := bits &&& 0x04 ≠ 0
    engine_stalled := bits &&& 0x08 ≠ 0
    pit_speed_limiter := bits &&& 0x10 ≠ 0
    rev_limiter := bits &&& 0x20 ≠ 0 }

/-- Model of `FlagState`. -/
structure FlagState where
  green : Bool
  yellow : Bool
  yellow_waving : Bool
  caution : Bool
  caution_waving : Bool
  red : Bool
  blue : Bool
  white : Bool
  checkered : Bool
  black : Bool
  disqualified : Bool
  debris : Bool
  crossed : Bool
  one_lap_to_green : Bool
  green_held : Bool
  ten_to_go : Bool
  five_to_go : Bool
  can_service : Bool
  furled : Bool
  repair : Bool
  start_hidden : Bool
  start_ready : Bool
  start_set : Bool
  start_go : Bool
deriving DecidableEq, Repr

/-- Model of `FlagState::from_iracing_bits`. -/
def FlagState.from_iracing_bits (bits : Nat) : FlagState :=
  { checkered := bits &&& 0x01 ≠ 0
    white := bits &&& (1 <<< 1) ≠ 0
    green := bits &&& 0x04 ≠ 0
    yellow := bits &&& (1 <<< 3) ≠ 0
    red := bits &&& (1 <<< 4) ≠ 0
    blue := bits &&& (1 <<< 5) ≠ 0
    debris := bits &&& (1 <<< 6) ≠ 0
    crossed := bits &&& (1 <<< 7) ≠ 0
    yellow_waving := bits &&& (1 <<< 8) ≠ 0
    one_lap_to_green := bits &&& (1 <<< 9) ≠ 0
    green_held := bits &&& (1 <<< 10) ≠ 0
    ten_to_go := bits &&& (1 <<< 11) ≠ 0
    five_to_go := bits &&& (1 <<< 12) ≠ 0
    caution := bits &&& (1 <<< 14) ≠ 0
    caution_waving := bits &&& (1 <<< 15) ≠ 0
    black := bits &&& (1 <<< 16) ≠ 0
    disqualified := bits &&& (1 <<< 17) ≠ 0
    can_service := bits &&& (1 <<< 18) ≠ 0
    furled := bits &&& (1 <<< 19) ≠ 0
    repair := bits &&& (1 <<< 20) ≠ 0
    start_hidden := bits &&& (1 <<< 21) ≠ 0
    start_ready := bits &&& (1 <<< 22) ≠ 0
    start_set := bits &&& (1 <<< 23) ≠ 0
    start_go := bits &&& (1 <<< 24) ≠ 0 }

/-- Model of `MotionData`. All unit newtypes are transparent `ℚ` wrappers in this
model (`units.rs` newtypes only tag the value). -/
structure MotionData where
  position : Option (Vec3 ℚ)
  velocity : Option (Vec3 ℚ)
  acceleration : Option (Vec3 ℚ)
  g_force : Option (Vec3 ℚ)
  rotation : Option (Vec3 ℚ)
  angular_velocity : Option (Vec3 ℚ)
  angular_acceleration : Option (Vec3 ℚ)
deriving DecidableEq, Repr

/-- Model of `VehicleData`. -/
structure VehicleData where
  speed : Option ℚ
  rpm : Option ℚ
  max_rpm : Option ℚ
  idle_rpm : Option ℚ
  gear : Option Int
  max_gears : Option Nat
  throttle : Option ℚ
  brake : Option ℚ
  clutch : Option ℚ
  steering_angle : Option ℚ
  steering_torque : Option ℚ
  steering_torque_pct : Option ℚ
  handbrake : Option ℚ
  on_track : Option Bool
  in_garage : Option Bool
  track_surface : Option TrackSurface
deriving DecidableEq, Repr

/-- Model of `EngineData`. -/
structure EngineData where
  water_temp : Option ℚ
  oil_temp : Option ℚ
  oil_pressure : Option ℚ
  oil_level : Option ℚ
  fuel_level : Option ℚ
  fuel_level_pct : Option ℚ
  fuel_capacity : Option ℚ
  fuel_pressure : Option ℚ
  fuel_use_per_hour : Option ℚ
  voltage : Option ℚ
  manifold_pressure : Option ℚ
  warnings : Option EngineWarnings
deriving DecidableEq, Repr

/-- Model of `WheelInfo`. -/
structure WheelInfo where
  suspension_travel : Option ℚ
  suspension_travel_avg : Option ℚ
  shock_velocity : Option ℚ
  shock_velocity_avg : Option ℚ
  ride_height : Option ℚ
  tyre_pressure : Option ℚ
  tyre_cold_pressure : Option ℚ
  surface_temp_inner : Option ℚ
  surface_temp_middle : Option ℚ
  surface_temp_outer : Option ℚ
  carcass_temp_inner : Option ℚ
  carcass_temp_middle : Option ℚ
  carcass_temp_outer : Option ℚ
  tyre_wear : Option ℚ
  wheel_speed : Option ℚ
  slip_ratio : Option ℚ
  slip_angle : Option ℚ
  load : Option ℚ
  brake_line_pressure : Option ℚ
  brake_temp : Option ℚ
  tyre_compound : Option String
deriving DecidableEq, Repr

/-- Model of `WheelData`. -/
structure WheelData where
  front_left : WheelInfo
  front_right : WheelInfo
  rear_left : WheelInfo
  rear_right : WheelInfo
deriving DecidableEq, Repr

/-- Model of `TimingData`. -/
structure TimingData where
  current_lap_time : Option ℚ
  last_lap_time : Option ℚ
  best_lap_time : Option ℚ
  best_n_lap_time : Option ℚ
  best_n_lap_num : Option Nat
  sector_times : Option (List ℚ)
  lap_number : Option Nat
  laps_completed : Option Nat
  lap_distance : Option ℚ
  lap_distance_pct : Option ℚ
  race_position : Option Nat
  class_position : Option Nat
  num_cars : Option Nat
  delta_best : Option ℚ
  delta_best_ok : Option Bool
  delta_session_best : Option ℚ
  delta_session_best_ok : Option Bool
  delta_optimal : Option ℚ
  delta_optimal_ok : Option Bool
  estimated_lap_time : Option ℚ
  race_laps : Option Nat
deriving DecidableEq, Repr

/-- Model of `SessionData`. -/
structure SessionData where
  session_type : Option SessionType
  session_state : Option SessionState
  session_time : Option ℚ
  session_time_remaining : Option ℚ
  session_time_of_day : Option ℚ
  session_laps : Option Nat
  session_laps_remaining : Option Nat
  flags : Option FlagState
  track_name : Option String
  track_config : Option String
  track_length : Option ℚ
  track_type : Option String
  car_name : Option String
  car_class : Option String
deriving DecidableEq, Repr

/-- Model of `WeatherData`. -/
structure WeatherData where
  air_temp : Option ℚ
  track_temp : Option ℚ
  air_pressure : Option ℚ
  air_density : Option ℚ
  humidity : Option ℚ
  wind_speed : Option ℚ
  wind_direction : Option ℚ
  fog_level : Option ℚ
  precipitation : Option ℚ
  track_wetness : Option TrackWetness
  skies : Option String
  declared_wet : Option Bool
deriving DecidableEq, Repr

/-- Model of `PitServices`. -/
structure PitServices where
  fuel_to_add : Option ℚ
  change_tyre_fl : Bool
  change_tyre_fr : Bool
  change_tyre_rl : Bool
  change_tyre_rr : Bool
  windshield_tearoff : Bool
  fast_repair : Bool
  tyre_pressure_fl : Option ℚ
  tyre_pressure_fr : Option ℚ
  tyre_pressure_rl : Option ℚ
  tyre_pressure_rr : Option ℚ
deriving DecidableEq, Repr

/-- Model of `PitData`. -/
structure PitData where
  on_pit_road : Option Bool
  pit_active : Option Bool
  pit_service_status : Option Nat
  repair_time_left : Option ℚ
  optional_repair_time_left : Option ℚ
  fast_repair_available : Option Nat
  fast_repair_used : Option Nat
  pit_speed_limit : Option ℚ
  requested_services : Option PitServices
deriving DecidableEq, Repr

/-- Model of `ElectronicsData`. -/
structure ElectronicsData where
  abs : Option ℚ
  traction_control : Option ℚ
  traction_control_2 : Option ℚ
  brake_bias : Option ℚ
  anti_roll_front : Option ℚ
  anti_roll_rear : Option ℚ
  drs_status : Option Nat
  push_to_pass_status : Option Nat
  push_to_pass_count : Option Nat
  throttle_shape : Option ℚ
deriving DecidableEq, Repr

/-- Model of `DamageData`. -/
structure DamageData where
  front : Option ℚ
  rear : Option ℚ
  left : Option ℚ
  right : Option ℚ
  engine : Option ℚ
  transmission : Option ℚ
deriving DecidableEq, Repr

/-- Model of `CompetitorData`. -/
structure CompetitorData where
  car_index : Nat
  driver_name : Option String
  car_name : Option String
  car_class : Option String
  team_name : Option String
  car_number : Option String
  lap : Option Nat
  laps_completed : Option Nat
  lap_distance_pct : Option ℚ
  position : Option Nat
  class_position : Option Nat
  on_pit_road : Option Bool
  track_surface : Option TrackSurface
  best_lap_time : Option ℚ
  last_lap_time : Option ℚ
  estimated_time : Option ℚ
  gear : Option Int
  rpm : Option ℚ
  steering : Option ℚ
deriving DecidableEq, Repr

/-- Model of `DriverData`. -/
structure DriverData where
  name : Option String
  car_index : Option Nat
  car_name : Option String
  car_class : Option String
  car_number : Option String
  team_name : Option String
  fuel_capacity : Option ℚ
  shift_light_first_rpm : Option ℚ
  shift_light_shift_rpm : Option ℚ
  shift_light_last_rpm : Option ℚ
  shift_light_blink_rpm : Option ℚ
  estimated_lap_time : Option ℚ
  setup_name : Option String
deriving DecidableEq, Repr

/-- JSON values as far as the model needs them (for `extras`). -/
inductive Json
  | null
  | bool (b : Bool)
  | num (q : ℚ)
  | str (s : String)
  | numArray (l : List ℚ)
  | intArray (l : List Int)
deriving DecidableEq, Repr

/-- Model of `TelemetryFrame`. `timestamp` (a UTC wall-clock instant in the source)
is an abstract instant. -/
structure TelemetryFrame where
  timestamp : Nat
  game : String
  tick : Option Nat
  motion : Option MotionData
  vehicle : Option VehicleData
  engine : Option EngineData
  wheels : Option WheelData
  timing : Option TimingData
  session : Option SessionData
  weather : Option WeatherData
  pit : Option PitData
  electronics : Option ElectronicsData
  damage : Option DamageData
  competitors : Option (List CompetitorData)
  driver : Option DriverData
  extras : List (String × Json)
deriving DecidableEq, Repr

-- ===========================================================================
-- ibt_parser.rs: normalizer (sample_to_frame)
-- ===========================================================================

/-- Rust `str::trim_end_matches`: repeatedly strip the suffix. Fuel-based
recursion bounded by the string length. -/
def trimEndMatchesAux (pat : String) : Nat → String → String
  | 0, s => s
  | n + 1, s =>
      if !strIsEmpty pat && strEndsWith s pat then
        trimEndMatchesAux pat n (strDropRight s pat.length)
      else s

/-- Rust `s.trim_end_matches(pat)`. -/
def rustTrimEndMatches (s pat : String) : String := trimEndMatchesAux pat s.length s

/-- Value of a digit string (callers guarantee digits only). -/
def natOfDigits (cs : List Char) : Nat :=
  cs.foldl (fun a c => a * 10 + (c.toNat - 48)) 0

/-- Rust `str::parse::<f32>` restricted to plain decimal literals
(optional sign, integer part, optional fraction). Exponent forms and
inf/nan spellings are not modelled; no claim depends on them. -/
def parseF32 (s : String) : Option ℚ :=
  let cs := s.toList
  let signed : ℚ × List Char :=
    match cs with
    | c :: rest => if c = '-' then (-1, rest) else if c = '+' then (1, rest) else (1, cs)
    | [] => (1, cs)
  let sgn := signed.1
  let cs2 := signed.2
  let ip := cs2.takeWhile Char.isDigit
  let rest := cs2.drop ip.length
  let finish : List Char → Option ℚ := fun fp =>
    if ip.length + fp.length = 0 then none
    else some (sgn * ((natOfDigits ip : ℚ) + (natOfDigits fp : ℚ) / 10 ^ fp.length))
  match rest with
  | [] => finish []
  | '.' :: fr =>
      let fp := fr.takeWhile Char.isDigit
      if (fr.drop fp.length).isEmpty then finish fp else none
  | _ => none

/-- Rust `str::contains` for a literal pattern. -/
def strContains (s pat : String) : Bool :=
  (List.range (s.length + 1)).any (fun i => pat.data.isPrefixOf (s.data.drop i))

/-- Model of `IbtFile::MAPPED_VARS`: variable names already mapped to structured
`TelemetryFrame` fields; everything not in this list (and not `CarIdx*`)
goes into extras. Transcribed verbatim from `ibt_parser.rs`. -/
def MAPPED_VARS : List String := [
  -- Motion
  "VelocityX", "VelocityY", "VelocityZ",
  "LatAccel", "LongAccel", "VertAccel",
  "Pitch", "Yaw", "Roll",
  "PitchRate", "YawRate", "RollRate",
  "Speed",
  -- Vehicle
  "RPM", "Gear", "Throttle", "Brake", "Clutch",
  "SteeringWheelAngle", "SteeringWheelTorque", "SteeringWheelPctTorque",
  "IsOnTrack", "IsInGarage", "PlayerTrackSurface",
  -- Engine
  "WaterTemp", "OilTemp", "OilPress", "OilLevel",
  "FuelLevel", "FuelLevelPct", "FuelPress", "FuelUsePerHour",
  "Voltage", "ManifoldPress", "EngineWarnings",
  -- Wheels - LF
  "LFshockDefl", "LFshockDeflST", "LFshockVel", "LFshockVelST", "LFrideHeight",
  "LFairPressure", "LFcoldPressure",
  "LFtempCL", "LFtempCC", "LFtempCR",
  "LFtempL", "LFtempM", "LFtempR",
  "LFwear", "LFspeed", "LFbrakeLinePress",
  -- Wheels - RF
  "RFshockDefl", "RFshockDeflST", "RFshockVel", "RFshockVelST", "RFrideHeight",
  "RFairPressure", "RFcoldPressure",
  "RFtempCL", "RFtempCC", "RFtempCR",
  "RFtempL", "RFtempM", "RFtempR",
  "RFwear", "RFspeed", "RFbrakeLinePress",
  -- Wheels - LR
  "LRshockDefl", "LRshockDeflST", "LRshockVel", "LRshockVelST", "LRrideHeight",
  "LRairPressure", "LRcoldPressure",
  "LRtempCL", "LRtempCC", "LRtempCR",
  "LRtempL", "LRtempM", "LRtempR",
  "LRwear", "LRspeed", "LRbrakeLinePress",
  -- Wheels - RR
  "RRshockDefl", "RRshockDeflST", "RRshockVel", "RRshockVelST", "RRrideHeight",
  "RRairPressure", "RRcoldPressure",
  "RRtempCL", "RRtempCC", "RRtempCR",
  "RRtempL", "RRtempM", "RRtempR",
  "RRwear", "RRspeed", "RRbrakeLinePress",
  -- Timing
  "LapCurrentLapTime", "LapLastLapTime", "LapBestLapTime",
  "LapBestNLapTime", "LapBestNLapLap",
  "Lap", "LapCompleted", "LapDist", "LapDistPct",
  "PlayerCarPosition", "PlayerCarClassPosition",
  "LapDeltaToBestLap", "LapDeltaToBestLap_OK",
  "LapDeltaToSessionBestLap", "LapDeltaToSessionBestLap_OK",
  "LapDeltaToOptimalLap", "LapDeltaToOptimalLap_OK",
  "RaceLaps",
  -- Session
  "SessionState", "SessionTime", "SessionTimeRemain", "SessionTimeOfDay",
  "SessionLapsRemainEx", "SessionFlags", "SessionNum",
  -- Weather
  "AirTemp", "TrackTempCrew", "AirPressure", "AirDensity",
  "RelativeHumidity", "WindVel", "WindDir",
  "FogLevel", "Precipitation", "TrackWetness",
  "Skies", "WeatherDeclaredWet",
  -- Pit
  "OnPitRoad", "PitstopActive", "PlayerCarPitSvStatus",
  "PitRepairLeft", "PitOptRepairLeft",
  "FastRepairAvailable", "FastRepairUsed",
  "dpFuelFill", "dpFuelAddKg",
  "dpLFTireChange", "dpRFTireChange", "dpLRTireChange", "dpRRTireChange",
  "dpLFTireColdPress", "dpRFTireColdPress", "dpLRTireColdPress", "dpRRTireColdPress",
  "dpWindshieldTearoff", "dpFastRepair",
  -- Electronics
  "dcABS", "dcTractionControl", "dcTractionControl2",
  "dcBrakeBias", "dcAntiRollFront", "dcAntiRollRear",
  "DRS_Status", "dcThrottleShape",
  "PushToPass",
  -- Per-car arrays
  "CarIdxLap", "CarIdxLapCompleted", "CarIdxLapDistPct",
  "CarIdxPosition", "CarIdxClassPosition",
  "CarIdxOnPitRoad", "CarIdxTrackSurface",
  "CarIdxBestLapTime", "CarIdxLastLapTime", "CarIdxEstTime",
  "CarIdxGear", "CarIdxRPM", "CarIdxSteer",
  -- Tick
  "SessionTick"]

/-- Rust `round` to 4 decimals (`(x * 10000.0).round() / 10000.0`); ties
round up in the rational model where Rust rounds away from zero. -/
def round4 (q : ℚ) : ℚ := ((round (q * 10000) : ℤ) : ℚ) / 10000

/-- Model of `IbtFile::var_value_to_json`. -/
def var_value_to_json : VarValue → Json
  | .char c => .num c
  | .bool b => .bool b
  | .int i => .num i
  | .bitField u => .num u
  | .float f => .num (round4 f)
  | .double d => .num (round4 d)
  | .charArray v =>
      .str (String.mk (((v.reverse.dropWhile (fun b => b = 0)).reverse).map Char.ofNat))
  | .intArray v => .intArray v
  | .floatArray v => .numArray (v.map round4)
  | .doubleArray v => .numArray (v.map round4)

/-- Rust `g as i8` (two's-complement truncation). -/
def i8OfInt (v : Int) : Int := (v + 128) % 256 - 128

/-- Model of `IbtFile::extract_wheel`. `pfx` is "LF", "RF", "LR" or "RR". -/
def extract_wheel (sample : SampleMap) (pfx : String) (is_left_side : Bool) : WheelInfo :=
  let get_f32 := fun (suffix : String) => (mapGet sample (pfx ++ suffix)).bind VarValue.as_f32
  let surfacePair :=
    if is_left_side then (get_f32 "tempCR", get_f32 "tempCL")
    else (get_f32 "tempCL", get_f32 "tempCR")
  let carcassPair :=
    if is_left_side then (get_f32 "tempR", get_f32 "tempL")
    else (get_f32 "tempL", get_f32 "tempR")
  { suspension_travel := get_f32 "shockDefl"
    suspension_travel_avg := get_f32 "shockDeflST"
    shock_velocity := get_f32 "shockVel"
    shock_velocity_avg := get_f32 "shockVelST"
    ride_height := get_f32 "rideHeight"
    tyre_pressure := get_f32 "pressure"
    tyre_cold_pressure := get_f32 "coldPressure"
    surface_temp_inner := surfacePair.1
    surface_temp_middle := get_f32 "tempCM"
    surface_temp_outer := surfacePair.2
    carcass_temp_inner := carcassPair.1
    carcass_temp_middle := get_f32 "tempM"
    carcass_temp_outer := carcassPair.2
    tyre_wear := (get_f32 "wearL").map Percentage.new
    wheel_speed := get_f32 "speed"
    slip_ratio := none
    slip_angle := none
    load := none
    brake_line_pressure := get_f32 "brakeLinePress"
    brake_temp := none
    tyre_compound := none }

/-- Model of `IbtFile::parse_session_type`. -/
def parse_session_type (info : IbtSessionInfo) : Option SessionType :=
  let st := strLower info.session_type
  if strContains st "race" then some .race
  else if strContains st "qualify" || strContains st "qual" then some .qualifying
  else if strContains st "practice" then some .practice
  else if strContains st "time trial" || strContains st "timetrial" then some .timeTrial
  else if strContains st "hotlap" then some .hotlap
  else if strContains st "warmup" || strContains st "warm up" then some .warmup
  else if !strIsEmpty st then some .other
  else none

/-- Model of `Some(s).filter(|s| !s.is_empty())`. -/
def nonEmptyString (s : String) : Option String := if strIsEmpty s then none else some s

/-- Lenient getters used throughout `sample_to_frame`. -/
def get_f32 (sample : SampleMap) (name : String) : Option ℚ :=
  (mapGet sample name).bind VarValue.as_f32

/-- See `get_f32`. -/
def get_f64 (sample : SampleMap) (name : String) : Option ℚ :=
  (mapGet sample name).bind VarValue.as_f64

/-- See `get_f32`. -/
def get_i32 (sample : SampleMap) (name : String) : Option Int :=
  (mapGet sample name).bind VarValue.as_i32

/-- See `get_f32`. -/
def get_u32 (sample : SampleMap) (name : String) : Option Nat :=
  (mapGet sample name).bind VarValue.as_u32

/-- See `get_f32`. -/
def get_bool (sample : SampleMap) (name : String) : Option Bool :=
  (mapGet sample name).bind VarValue.as_bool

/-!
`IbtFile::sample_to_frame` is one large method in the source, built from
clearly delimited per-section blocks. It is modelled as one function per
block (`stf_*`) assembled by `sample_to_frame`, because Lean's code
generator cannot handle it as a single definition. Each block is a direct
translation of the corresponding section of the source. `info` stands for
`self.session_info` (the only state the method reads); `now` models
`Utc::now()`. Square roots use `Rat.sqrt` as a concrete stand-in for
`f32::sqrt`; its exact value is irrelevant to every claim proved in this
file.
-/

/-- Velocity vector (Motion block of `sample_to_frame`). -/
def stf_velocity (sample : SampleMap) : Option (Vec3 ℚ) :=
  match get_f32 sample "VelocityX", get_f32 sample "VelocityY", get_f32 sample "VelocityZ" with
  | some vx, some vy, some vz => some ⟨vx, vy, vz⟩
  | _, _, _ => none

/-- Acceleration vector: the source stores `(lat, vert, long)`. -/
def stf_acceleration (sample : SampleMap) : Option (Vec3 ℚ) :=
  match get_f32 sample "LatAccel", get_f32 sample "LongAccel", get_f32 sample "VertAccel" with
  | some lat, some long, some vert => some ⟨lat, vert, long⟩
  | _, _, _ => none

/-- Motion block of `sample_to_frame`. -/
def stf_motion (sample : SampleMap) : Option MotionData :=
  let acceleration := stf_acceleration sample
  let g_force := acceleration.map (fun a =>
    (⟨GForce.from_acceleration a.x, GForce.from_acceleration a.y,
      GForce.from_acceleration a.z⟩ : Vec3 ℚ))
  let rotation : Option (Vec3 ℚ) :=
    match get_f32 sample "Pitch", get_f32 sample "Yaw", get_f32 sample "Roll" with
    | some p, some y, some r => some ⟨p, y, r⟩
    | _, _, _ => none
  let angular_velocity : Option (Vec3 ℚ) :=
    match get_f32 sample "PitchRate", get_f32 sample "YawRate", get_f32 sample "RollRate" with
    | some p, some y, some r => some ⟨p, y, r⟩
    | _, _, _ => none
  some
    { position := none, velocity := stf_velocity sample, acceleration := acceleration
      g_force := g_force, rotation := rotation
      angular_velocity := angular_velocity, angular_acceleration := none }

/-- Speed with the `‖velocity‖` fallback (Vehicle block). -/
def stf_speed (sample : SampleMap) : Option ℚ :=
  match get_f32 sample "Speed" with
  | some s => some s
  | none => (stf_velocity sample).map (fun v => Rat.sqrt (v.x ^ 2 + v.y ^ 2 + v.z ^ 2))

/-- Surface classification (Vehicle block). -/
def stf_track_surface (sample : SampleMap) : Option TrackSurface :=
  (get_i32 sample "PlayerTrackSurface").map (fun idx =>
    if idx = -1 then TrackSurface.notInWorld
    else if idx = 0 then .undefined
    else if 1 ≤ idx ∧ idx ≤ 4 then .asphalt
    else if idx = 6 ∨ idx = 7 then .concrete
    else if idx = 8 ∨ idx = 9 then .racingDirt
    else if idx = 10 ∨ idx = 11 then .paint
    else if 12 ≤ idx ∧ idx ≤ 15 then .rumble
    else if 16 ≤ idx ∧ idx ≤ 19 then .grass
    else if 20 ≤ idx ∧ idx ≤ 23 then .dirt
    else if idx = 24 then .sand
    else if 25 ≤ idx ∧ idx ≤ 28 then .gravel
    else if idx = 29 then .grasscrete
    else if idx = 30 then .astroturf
    else .unknown)

/-- Vehicle block of `sample_to_frame`. -/
def stf_vehicle (sample : SampleMap) : Option VehicleData :=
  some
    { speed := stf_speed sample
      rpm := get_f32 sample "RPM"
      max_rpm := none
      idle_rpm := none
      gear := (get_i32 sample "Gear").map i8OfInt
      max_gears := none
      throttle := (get_f32 sample "Throttle").map Percentage.new
      brake := (get_f32 sample "Brake").map Percentage.new
      clutch := (get_f32 sample "Clutch").map Percentage.new
      steering_angle := get_f32 sample "SteeringWheelAngle"
      steering_torque := get_f32 sample "SteeringWheelTorque"
      steering_torque_pct := (get_f32 sample "SteeringWheelPctTorque").map Percentage.new
      handbrake := none
      on_track := get_bool sample "IsOnTrack"
      in_garage := get_bool sample "IsInGarage"
      track_surface := stf_track_surface sample }

/-- Engine block of `sample_to_frame`. -/
def stf_engine (sample : SampleMap) : Option EngineData :=
  some
    { water_temp := get_f32 sample "WaterTemp"
      oil_temp := get_f32 sample "OilTemp"
      oil_pressure := get_f32 sample "OilPress"
      oil_level := (get_f32 sample "OilLevel").map Percentage.new
      fuel_level := get_f32 sample "FuelLevel"
      fuel_level_pct := (get_f32 sample "FuelLevelPct").map Percentage.new
      fuel_capacity := none
      fuel_pressure := get_f32 sample "FuelPress"
      fuel_use_per_hour := get_f32 sample "FuelUsePerHour"
      voltage := get_f32 sample "Voltage"
      manifold_pressure := get_f32 sample "ManifoldPress"
      warnings := (get_u32 sample "EngineWarnings").map EngineWarnings.from_iracing_bits }

/-- Wheels block of `sample_to_frame`. -/
def stf_wheels (sample : SampleMap) : Option WheelData :=
  some
    { front_left := extract_wheel sample "LF" true
      front_right := extract_wheel sample "RF" false
      rear_left := extract_wheel sample "LR" true
      rear_right := extract_wheel sample "RR" false }

/-- Timing block of `sample_to_frame`. -/
def stf_timing (sample : SampleMap) : Option TimingData :=
  some
    { current_lap_time := get_f64 sample "LapCurrentLapTime"
      last_lap_time := get_f64 sample "LapLastLapTime"
      best_lap_time := get_f64 sample "LapBestLapTime"
      best_n_lap_time := get_f64 sample "LapBestNLapTime"
      best_n_lap_num := (get_i32 sample "LapBestNLapLap").map u32OfInt
      sector_times := none
      lap_number := (get_i32 sample "Lap").map u32OfInt
      laps_completed := (get_i32 sample "LapCompleted").map u32OfInt
      lap_distance := get_f32 sample "LapDist"
      lap_distance_pct := (get_f32 sample "LapDistPct").map Percentage.new
      race_position := (get_i32 sample "PlayerCarPosition").map u32OfInt
      class_position := (get_i32 sample "PlayerCarClassPosition").map u32OfInt
      num_cars := none
      delta_best := get_f32 sample "LapDeltaToBestLap"
      delta_best_ok := get_bool sample "LapDeltaToBestLap_OK"
      delta_session_best := get_f32 sample "LapDeltaToSessionBestLap"
      delta_session_best_ok := get_bool sample "LapDeltaToSessionBestLap_OK"
      delta_optimal := get_f32 sample "LapDeltaToOptimalLap"
      delta_optimal_ok := get_bool sample "LapDeltaToOptimalLap_OK"
      estimated_lap_time := none
      race_laps := none }

/-- Track length parse (Session block): `"<number> km"`, comma as decimal
separator, converted to meters. -/
def stf_track_length (info : IbtSessionInfo) : Option ℚ :=
  (parseF32 ((rustTrimEndMatches info.track_length " km").replace "," ".")).map
    (fun km => km * 1000)

/-- Session block of `sample_to_frame`. -/
def stf_session (info : IbtSessionInfo) (sample : SampleMap) : Option SessionData :=
  some
    { session_type := parse_session_type info
      session_state := (get_i32 sample "SessionState").map SessionState.from_iracing
      session_time := get_f64 sample "SessionTime"
      session_time_remaining := get_f64 sample "SessionTimeRemain"
      session_time_of_day := get_f32 sample "SessionTimeOfDay"
      session_laps := none
      session_laps_remaining := (get_i32 sample "SessionLapsRemainEx").map u32OfInt
      flags := (get_u32 sample "SessionFlags").map FlagState.from_iracing_bits
      track_name := nonEmptyString info.track_display_name
      track_config := nonEmptyString info.track_config_name
      track_length := stf_track_length info
      track_type := none
      car_name := nonEmptyString info.car_name
      car_class := none }

/-- Weather block of `sample_to_frame`. -/
def stf_weather (sample : SampleMap) : Option WeatherData :=
  some
    { air_temp := get_f32 sample "AirTemp"
      track_temp := get_f32 sample "TrackTempCrew"
      air_pressure := get_f32 sample "AirPressure"
      air_density := get_f32 sample "AirDensity"
      humidity := (get_f32 sample "RelativeHumidity").map (fun h => Percentage.new (h / 100))
      wind_speed := get_f32 sample "WindVel"
      wind_direction := get_f32 sample "WindDir"
      fog_level := (get_f32 sample "FogLevel").map Percentage.new
      precipitation := none
      track_wetness := none
      skies := (get_i32 sample "Skies").map (fun s =>
        if s = 0 then "Clear"
        else if s = 1 then "Partly Cloudy"
        else if s = 2 then "Mostly Cloudy"
        else if s = 3 then "Overcast"
        else "Unknown(" ++ toString s ++ ")")
      declared_wet := none }

/-- Pit block of `sample_to_frame`. -/
def stf_pit (sample : SampleMap) : Option PitData :=
  let requested_services : Option PitServices := some
    { fuel_to_add := get_f32 sample "dpFuelFill"
      change_tyre_fl := (get_f32 sample "dpLFTireChange").any (fun v => decide (v > 0))
      change_tyre_fr := (get_f32 sample "dpRFTireChange").any (fun v => decide (v > 0))
      change_tyre_rl := (get_f32 sample "dpLRTireChange").any (fun v => decide (v > 0))
      change_tyre_rr := (get_f32 sample "dpRRTireChange").any (fun v => decide (v > 0))
      windshield_tearoff := (get_f32 sample "dpWindshieldTearoff").any (fun v => decide (v > 0))
      fast_repair := (get_f32 sample "dpFastRepair").any (fun v => decide (v > 0))
      tyre_pressure_fl := get_f32 sample "dpLFTireColdPress"
      tyre_pressure_fr := get_f32 sample "dpRFTireColdPress"
      tyre_pressure_rl := get_f32 sample "dpLRTireColdPress"
      tyre_pressure_rr := get_f32 sample "dpRRTireColdPress" }
  some
    { on_pit_road := get_bool sample "OnPitRoad"
      pit_active := get_bool sample "PitstopActive"
      pit_service_status := (get_i32 sample "PlayerCarPitSvStatus").map u32OfInt
      repair_time_left := get_f32 sample "PitRepairLeft"
      optional_repair_time_left := get_f32 sample "PitOptRepairLeft"
      fast_repair_available := (get_i32 sample "FastRepairAvailable").map u32OfInt
      fast_repair_used := (get_i32 sample "FastRepairUsed").map u32OfInt
      pit_speed_limit := none
      requested_services := requested_services }

/-- Electronics block of `sample_to_frame`. -/
def stf_electronics (sample : SampleMap) : Option ElectronicsData :=
  some
    { abs := get_f32 sample "dcABS"
      traction_control := get_f32 sample "dcTractionControl"
      traction_control_2 := none
      brake_bias := (get_f32 sample "dcBrakeBias").map Percentage.new
      anti_roll_front := none
      anti_roll_rear := none
      drs_status := (get_i32 sample "DRS_Status").map u32OfInt
      push_to_pass_status := none
      push_to_pass_count := none
      throttle_shape := none }

/-- Extras block of `sample_to_frame`: every variable not in the mapped
set and not `CarIdx*`, under an `iracing/` key. -/
def stf_extras (sample : SampleMap) : List (String × Json) :=
  sample.foldl (fun m p =>
    if MAPPED_VARS.contains p.1 then m
    else if strStartsWith p.1 "CarIdx" then m
    else mapInsert m ("iracing/" ++ p.1) (var_value_to_json p.2)) []

/-- Model of `IbtFile::sample_to_frame`: assembly of the per-section blocks. -/
def sample_to_frame (info : IbtSessionInfo) (now : Nat) (sample : SampleMap) :
    TelemetryFrame :=
  { timestamp := now
    game := "iRacing Replay"
    tick := (get_i32 sample "SessionTick").map u32OfInt
    motion := stf_motion sample
    vehicle := stf_vehicle sample
    engine := stf_engine sample
    wheels := stf_wheels sample
    timing := stf_timing sample
    session := stf_session info sample
    weather := stf_weather sample
    pit := stf_pit sample
    electronics := stf_electronics sample
    damage := none
    competitors := none
    driver := none
    extras := stf_extras sample }

-- ===========================================================================
-- model.rs: FieldMask and filtered serialization
-- ===========================================================================

/-- Model of `FieldMask`: `fields` models the `HashSet<String>` (membership only). -/
structure FieldMask where
  fields : List String
  include_all : Bool
deriving DecidableEq, Repr

/-- Model of `FieldMask::all`. -/
def FieldMask.all : FieldMask := { fields := [], include_all := true }

/-- Model of `FieldMask::parse`: comma-split, trim, lowercase, drop empties. -/
def FieldMask.parse (fields : String) : FieldMask :=
  { fields := ((splitOnChar ',' fields).map (fun s => strLower (strTrim s))).filter
      (fun s => !strIsEmpty s)
    include_all := false }

/-- Model of `FieldMask::includes`. The byte-offset checks of the source are char
positions here (identical on ASCII section names). -/
def FieldMask.includes (m : FieldMask) (field : String) : Bool :=
  if m.include_all then true
  else
    let field_lower := strLower field
    if m.fields.contains field_lower then true
    else
      let parent_hit :=
        if field_lower.data.contains '.' then
          m.fields.contains (String.mk (field_lower.data.takeWhile (fun c => c ≠ '.')))
        else false
      if parent_hit then true
      else m.fields.any (fun f =>
        strStartsWith f field_lower && f.data.getD field_lower.length ' ' = '.')

/-- Model of `FieldMask::is_all`. -/
def FieldMask.is_all (m : FieldMask) : Bool := m.include_all

/-- Result of `TelemetryFrame::to_json_filtered`, at the granularity the
claims need: either the full serde serialization of the frame, or the
top-level key list of the filtered JSON object (in insertion order; the
values under the keys are the serde serializations of the corresponding
sections). -/
inductive FilteredJson
  | full
  | projected (keys : List String)
deriving DecidableEq, Repr

/-- Model of `TelemetryFrame::to_json_filtered`. Mirrors the source's control flow:
the full path when the mask is absent or all-including, otherwise one
conditional insert per section in source order. -/
def to_json_filtered (f : TelemetryFrame) (mask : Option FieldMask) : FilteredJson :=
  match mask with
  | none => .full
  | some m =>
    if m.is_all then .full
    else .projected (
      ["timestamp", "game"]
      ++ (if f.tick.isSome then ["tick"] else [])
      ++ (if m.includes "motion" && f.motion.isSome then ["motion"] else [])
      ++ (if m.includes "vehicle" && f.vehicle.isSome then ["vehicle"] else [])
      ++ (if m.includes "engine" && f.engine.isSome then ["engine"] else [])
      ++ (if m.includes "wheels" && f.wheels.isSome then ["wheels"] else [])
      ++ (if m.includes "timing" && f.timing.isSome then ["timing"] else [])
      ++ (if m.includes "session" && f.session.isSome then ["session"] else [])
      ++ (if m.includes "weather" && f.weather.isSome then ["weather"] else [])
      ++ (if m.includes "pit" && f.pit.isSome then ["pit"] else [])
      ++ (if m.includes "electronics" && f.electronics.isSome then ["electronics"] else [])
      ++ (if m.includes "damage" && f.damage.isSome then ["damage"] else [])
      ++ (if m.includes "competitors" && f.competitors.isSome then ["competitors"] else [])
      ++ (if m.includes "driver" && f.driver.isSome then ["driver"] else [])
      ++ (if m.includes "extras" && !f.extras.isEmpty then ["extras"] else []))

-- ===========================================================================
-- replay.rs: ReplayState
-- ===========================================================================

/-- Model of `n`-byte little-endian encoding of a value (modulo `256^n`). -/
def natLeBytes : Nat → Nat → List Nat
  | 0, _ => []
  | n + 1, v => v % 256 :: natLeBytes n (v / 256)

/-- Byte stream fed to the hasher by `ReplayState::from_file`:
`Hash` for `u64`/`usize` writes 8 little-endian bytes; `Hash` for `str`
writes the UTF-8 bytes followed by a `0xff` terminator (ASCII model). -/
def replayIdStream (file_size total_frames : Nat) (track car : String) : List Nat :=
  natLeBytes 8 file_size ++ natLeBytes 8 total_frames
    ++ track.toList.map Char.toNat ++ [0xff]
    ++ car.toList.map Char.toNat ++ [0xff]

/-- Model of `DefaultHasher` (SipHash-1-3 with fixed zero keys) modelled as a
concrete deterministic 64-bit fold of the written byte stream. The claims
proved about the replay id depend only on the hasher being a fixed
deterministic function of the stream, which holds for the real
`DefaultHasher`: `DefaultHasher::new()` uses constant keys, so the value
is stable across process restarts. -/
def defaultHasherFinish (stream : List Nat) : Nat :=
  stream.foldl (fun h b => (h * 1099511628211 + b) % 2 ^ 64) 14695981039346656037

/-- The `replay_id` computed in `ReplayState::from_file` (the source
formats the `u64` as 16 hex digits; the formatting is injective and kept
as the raw value here). -/
def replay_id_hash (file_size total_frames : Nat) (track car : String) : Nat :=
  defaultHasherFinish (replayIdStream file_size total_frames track car)

/-- Model of `ReplayState`. `laps` (built by `IbtFile::build_lap_index`, which is
declared in the source tree but whose definition is not under `src/`) and
`temp_path` are omitted: no claim settled here depends on them. -/
structure ReplayState where
  ibt : IbtFile
  current_frame : Nat
  total_frames : Nat
  tick_rate : Nat
  playing : Bool
  playback_speed : ℚ
  file_size : Nat
  track_name : String
  car_name : String
  duration_secs : ℚ
  replay_id : Nat
deriving DecidableEq, Repr

/-- The state built by `ReplayState::from_file` from the successfully
parsed recording. -/
def ReplayState.from_ibt (ibt : IbtFile) : ReplayState :=
  let total_frames := ibt.record_count
  let file_size := ibt.file_size
  let track_name := ibt.session_info.track_display_name
  let car_name := ibt.session_info.car_name
  { ibt := ibt
    current_frame := 0
    total_frames := total_frames
    tick_rate := ibt.tick_rate
    playing := true
    playback_speed := 1
    file_size := file_size
    track_name := track_name
    car_name := car_name
    duration_secs := ibt.duration_secs
    replay_id := replay_id_hash file_size total_frames track_name car_name }

/-- Model of `ReplayState::from_file`: parse then build the initial state. -/
def ReplayState.from_file (bytes : List Nat) : Except IbtError ReplayState :=
  (IbtFile.openFile bytes).map ReplayState.from_ibt

/-- Model of `ReplayState::get_frame`. `Utc::now()` is abstracted to a fixed
instant (the capture timestamp plays no role in any claim). -/
def ReplayState.get_frame (rs : ReplayState) (index : Nat) :
    Except IbtError TelemetryFrame :=
  (rs.ibt.read_sample index).map (sample_to_frame rs.ibt.session_info 0)

/-- Model of `ReplayState::play`. -/
def ReplayState.play (rs : ReplayState) : ReplayState := { rs with playing := true }

/-- Model of `ReplayState::pause`. -/
def ReplayState.pause (rs : ReplayState) : ReplayState := { rs with playing := false }

/-- Model of `ReplayState::seek`: clamp to `[0, total_frames − 1]`
(`total_frames.saturating_sub(1)` is `Nat` subtraction). -/
def ReplayState.seek (rs : ReplayState) (frame : Nat) : ReplayState :=
  { rs with current_frame := min frame (rs.total_frames - 1) }

/-- Model of `ReplayState::set_speed`: clamp to `[0.1, 16.0]`. -/
def ReplayState.set_speed (rs : ReplayState) (speed : ℚ) : ReplayState :=
  { rs with playback_speed :=
      if speed < 1 / 10 then 1 / 10 else if speed > 16 then 16 else speed }

/-- Model of `ReplayState::advance`: the returned `Option` is the source's return
value, paired with the mutated state. -/
def ReplayState.advance (rs : ReplayState) : Option Nat × ReplayState :=
  if !rs.playing then (none, rs)
  else if rs.current_frame ≥ rs.total_frames - 1 then (none, { rs with playing := false })
  else (some (rs.current_frame + 1), { rs with current_frame := rs.current_frame + 1 })

-- ===========================================================================
-- api.rs: replay driver task (start_playback_task)
-- ===========================================================================

/-- One iteration of the driver loop in `start_playback_task`, from the
snapshot of `(is_playing, ..)` to the end of the emit step. If paused, the
iteration only sleeps. Otherwise it reads the cursor, reads that frame,
advances, and sends the frame on the bus (on a read error it still
advances and sends nothing). The emission is identified by the sample
index the frame was read from. -/
def driver_step (rs : ReplayState) : Option Nat × ReplayState :=
  if !rs.playing then (none, rs)
  else
    let idx := rs.current_frame
    match rs.get_frame idx with
    | .ok _ => (some idx, (rs.advance).2)
    | .error _ => (none, (rs.advance).2)

-- ===========================================================================
-- Helper definitions and concrete fixtures used by the theorems below
-- ===========================================================================

/-- Whether an `Except` value is a success. -/
def exceptIsOk {ε α : Type} : Except ε α → Bool
  | .ok _ => true
  | .error _ => false

/-- The header version of a successfully opened file (`none` on failure). -/
def openVer (bytes : List Nat) : Option Int :=
  match IbtFile.openFile bytes with
  | .ok f => some f.header.ver
  | .error _ => none

/-- Well-formedness of a parsed recording's sample region: the file
actually contains the `record_count × buf_len` bytes of samples declared
by its headers (spec §3.2: "Samples: `record_count` contiguous blocks of
`buf_len` bytes starting at the base offset"). -/
def sample_region_wf (f : IbtFile) : Prop :=
  f.sample_data_offset + f.record_count * usizeOfInt f.header.buf_len ≤ f.bytes.length

/-- A minimal syntactically valid 144-byte `.ibt` file whose version
field is `v`: zero variables, zero-length session info, all offsets zero.
Bytes 0..4 hold the version; everything else is zero. -/
def testFileV (v : Nat) : List Nat := natLeBytes 4 v ++ List.replicate 140 0

/-- A file whose variable table (1 entry at offset 144) declares the
unknown variable type code 6. -/
def badTypeFile : List Nat :=
  List.replicate 24 0 ++ natLeBytes 4 1 ++ natLeBytes 4 144
    ++ List.replicate 112 0 ++ natLeBytes 4 6 ++ List.replicate 140 0

/-- The 48 bytes `read_header` decodes (the whole file when it is shorter). -/
def headerBuf (bytes : List Nat) : List Nat := (bytes.drop 0).take 48

/-- The raw header `ver` field at offset 0. -/
def hdrVer (bytes : List Nat) : Int := i32OfLe (byteSlice (headerBuf bytes) 0 4)

/-- The declared session-info length at offset 16, as the `usize` the
code reads with. -/
def hdrSessLen (bytes : List Nat) : Nat :=
  usizeOfInt (i32OfLe (byteSlice (headerBuf bytes) 16 20))

/-- The declared session-info offset at offset 20, as a `usize`. -/
def hdrSessOff (bytes : List Nat) : Nat :=
  usizeOfInt (i32OfLe (byteSlice (headerBuf bytes) 20 24))

/-- The declared variable count at offset 24, as a `usize`. -/
def hdrNumVars (bytes : List Nat) : Nat :=
  usizeOfInt (i32OfLe (byteSlice (headerBuf bytes) 24 28))

/-- The declared variable-table offset at offset 28, as a `usize`. -/
def hdrBase (bytes : List Nat) : Nat :=
  usizeOfInt (i32OfLe (byteSlice (headerBuf bytes) 28 32))

/-- The 144 bytes of variable-table entry `i`, read at `base + 144 * i`. -/
def entryBuf (bytes : List Nat) (base i : Nat) : List Nat :=
  (bytes.drop (base + 144 * i)).take 144

/-- Variable-table entry `i`'s 144-byte region lies within the file. -/
abbrev entryComplete (bytes : List Nat) (base i : Nat) : Prop :=
  base + 144 * i + 144 ≤ bytes.length

/-- The type code declared by variable-table entry `i` (bytes 0..4 of its
144-byte block). -/
def entryCode (bytes : List Nat) (base i : Nat) : Int :=
  i32OfLe (byteSlice (entryBuf bytes base i) 0 4)

/-- Variable-table entry `i` is fully inside the file and declares a type
code `VarType::from_i32` accepts. -/
abbrev goodEntry (bytes : List Nat) (base i : Nat) : Prop :=
  entryComplete bytes base i ∧
    exceptIsOk (VarType.from_i32 (entryCode bytes base i)) = true

/-- Structural well-formedness of a raw `.ibt` byte string: the three
fixed regions fit (48-byte header, buffer descriptor ending at 64, disk
sub-header ending at 144, hence at least 144 bytes), every declared
variable-table entry fits and carries a known type code, and the declared
session-YAML region fits (a declared length of zero always reads
successfully). The version field is not constrained. -/
abbrev openWf (bytes : List Nat) : Prop :=
  144 ≤ bytes.length ∧
  (∀ i, i < hdrNumVars bytes → goodEntry bytes (hdrBase bytes) i) ∧
  (hdrSessLen bytes = 0 ∨ hdrSessOff bytes + hdrSessLen bytes ≤ bytes.length)

/-- A small parsed recording: 2 records of 4 bytes each, one `int`
variable named "A", 16 bytes of sample data. -/
def ibtFixture : IbtFile :=
  { bytes := List.replicate 16 7
    header :=
      { ver := 2, status := 0, tick_rate := 60, session_info_update := 0
        session_info_len := 0, session_info_offset := 0, num_vars := 1
        var_header_offset := 0, num_buf := 1, buf_len := 4 }
    disk_sub_header :=
      { session_start_date := 0, session_start_time := 0, session_end_time := 0
        session_lap_count := 0, session_record_count := 2 }
    var_headers := [{ var_type := .int, offset := 0, count := 1
                      count_as_time := false, name := "A", desc := "", unit := "" }]
    session_info_yaml := ""
    session_info := IbtSessionInfo.default
    sample_data_offset := 0
    file_size := 16 }

/-- Model of `ibtFixture` with a different tick rate (same replay-id inputs). -/
def ibtFixtureB : IbtFile :=
  { ibtFixture with header := { ibtFixture.header with tick_rate := 120 } }

/-- A parsed recording with 10 one-byte records and no variables. -/
def ibtFixture10 : IbtFile :=
  { bytes := List.replicate 10 0
    header :=
      { ver := 2, status := 0, tick_rate := 60, session_info_update := 0
        session_info_len := 0, session_info_offset := 0, num_vars := 0
        var_header_offset := 0, num_buf := 1, buf_len := 1 }
    disk_sub_header :=
      { session_start_date := 0, session_start_time := 0, session_end_time := 0
        session_lap_count := 0, session_record_count := 10 }
    var_headers := []
    session_info_yaml := ""
    session_info := IbtSessionInfo.default
    sample_data_offset := 0
    file_size := 10 }

/-- Model of `ibtFixture10` restricted to 3 records. -/
def ibtFixture3 : IbtFile :=
  { ibtFixture10 with disk_sub_header :=
      { ibtFixture10.disk_sub_header with session_record_count := 3 } }

/-- Replay engine over `ibtFixture3` (3 frames, freshly loaded). -/
def rs3 : ReplayState := ReplayState.from_ibt ibtFixture3

/-- Replay engine over `ibtFixture10` (10 frames, freshly loaded). -/
def rs10 : ReplayState := ReplayState.from_ibt ibtFixture10

/-- A sample containing exactly one variable read by `extract_wheel` into
a wheel section field but missing from `MAPPED_VARS`. -/
def c1Sample : SampleMap := [("LFtempCM", VarValue.float 70)]

/-- A sample with a throttle value above 1 (to witness clamping). -/
def c8Sample : SampleMap := [("Throttle", VarValue.float 2)]

/-- A concrete frame used by the mask witnesses. -/
def frameFixture : TelemetryFrame := sample_to_frame IbtSessionInfo.default 0 c8Sample

/-- The mask `"vehicle"`. -/
def maskVehicle : FieldMask := FieldMask.parse "vehicle"

/-- The names of all top-level keys `to_json_filtered` can emit. -/
def topLevelKeys : List String :=
  ["timestamp", "game", "tick", "motion", "vehicle", "engine", "wheels",
   "timing", "session", "weather", "pit", "electronics", "damage",
   "competitors", "driver", "extras"]

-- ===========================================================================
-- Theorems
-- ===========================================================================

/-- If a positional read succeeds, re-taking `len` is the identity. -/
theorem readExact_take {bytes : List Nat} {off len : Nat} {b : List Nat}
    (h : readExact bytes off len = some b) : b.take len = b := by
  unfold readExact at h
  split at h
  · cases h; simp
  · split at h
    · cases h; simp [List.take_take]
    · cases h

/-- A positional read inside the file succeeds with the byte slice. -/
theorem readExact_some_of_le {bytes : List Nat} {off len : Nat}
    (h : off + len ≤ bytes.length) :
    readExact bytes off len = some ((bytes.drop off).take len) := by
  unfold readExact
  rcases Nat.eq_zero_or_pos len with hlen | hlen
  · subst hlen; simp
  · rw [if_neg (by omega), if_pos h]

/-- C3. For every parsed recording and every index, the bulk read of a
single sample decodes to exactly the singleton list of the single-sample
read: same success/failure, same mapping (hence same key set and equal
values at every key). -/
theorem single_bulk_read_agree (f : IbtFile) (i : Nat) :
    f.read_samples_range i 1 = Except.map (fun m => [m]) (f.read_sample i) := by
  unfold IbtFile.read_samples_range IbtFile.read_sample
  by_cases h : i ≥ f.record_count
  · simp [h, Except.map]
  · have hmin : min 1 (f.record_count - i) = 1 := by omega
    simp only [h, if_false, hmin, Nat.mul_one, one_ne_zero, if_neg]
    cases hre : readExact f.bytes (f.sample_data_offset + i * usizeOfInt f.header.buf_len)
        (usizeOfInt f.header.buf_len) with
    | none => simp [Except.map]
    | some bulk =>
        simp [Except.map, List.range_succ, readExact_take hre]

/-- C9. The replay id assigned at load is a function of only
`(file_size, total_frames, track_name, car_name)`: any two parsed
recordings agreeing on those four values are assigned equal ids. -/
theorem replay_id_depends_only_on_quadruple (a b : IbtFile)
    (h1 : a.file_size = b.file_size)
    (h2 : a.record_count = b.record_count)
    (h3 : a.session_info.track_display_name = b.session_info.track_display_name)
    (h4 : a.session_info.car_name = b.session_info.car_name) :
    (ReplayState.from_ibt a).replay_id = (ReplayState.from_ibt b).replay_id := by
  simp only [ReplayState.from_ibt]
  rw [h1, h2, h3, h4]

/-- Witness for C9: two recordings differing in tick rate but agreeing on
the quadruple receive the same replay id. -/
theorem replay_id_depends_only_on_quadruple_witness :
    (ReplayState.from_ibt ibtFixture).replay_id
      = (ReplayState.from_ibt ibtFixtureB).replay_id
    ∧ ibtFixture ≠ ibtFixtureB := by
  refine ⟨replay_id_depends_only_on_quadruple ibtFixture ibtFixtureB rfl rfl rfl rfl, ?_⟩
  intro h
  have htr := congrArg (fun f => f.header.tick_rate) h
  simp [ibtFixture, ibtFixtureB] at htr

/-- C10. A successfully loaded replay starts at frame 0, playing, at
native speed. -/
theorem from_file_initial_state (bytes : List Nat) (st : ReplayState)
    (h : ReplayState.from_file bytes = .ok st) :
    st.current_frame = 0 ∧ st.playing = true ∧ st.playback_speed = 1 := by
  unfold ReplayState.from_file at h
  cases hopen : IbtFile.openFile bytes with
  | ok f =>
      rw [hopen] at h
      cases h
      simp [ReplayState.from_ibt]
  | error e => rw [hopen] at h; cases h

/-- Witness for C10 at a concrete minimal file. -/
theorem from_file_initial_state_witness :
    ∃ st, ReplayState.from_file (testFileV 2) = .ok st ∧
      st.current_frame = 0 ∧ st.playing = true ∧ st.playback_speed = 1 := by
  cases hopen : ReplayState.from_file (testFileV 2) with
  | ok st => exact ⟨st, rfl, from_file_initial_state (testFileV 2) st hopen⟩
  | error e =>
      have hok : exceptIsOk (ReplayState.from_file (testFileV 2)) = true := by decide
      rw [hopen] at hok
      cases hok

/-- Model of `ReplayState::seek` as a record update. -/
theorem seek_spec (rs : ReplayState) (k : Nat) :
    rs.seek k = { rs with current_frame := min k (rs.total_frames - 1) } := rfl

/-- Model of `advance` on a paused engine: absent, state unchanged. -/
theorem advance_not_playing (rs : ReplayState) (hp : rs.playing = false) :
    rs.advance = (none, rs) := by
  unfold ReplayState.advance
  rw [hp]
  rfl

/-- Model of `advance` at or beyond the final frame: absent, `playing` cleared. -/
theorem advance_at_end (rs : ReplayState) (hp : rs.playing = true)
    (h : rs.total_frames - 1 ≤ rs.current_frame) :
    rs.advance = (none, { rs with playing := false }) := by
  unfold ReplayState.advance
  rw [hp]
  simp only [Bool.not_true, Bool.false_eq_true, if_false]
  rw [if_pos (by omega)]

/-- Model of `advance` strictly before the final frame: increments the cursor. -/
theorem advance_mid (rs : ReplayState) (hp : rs.playing = true)
    (h : rs.current_frame < rs.total_frames - 1) :
    rs.advance = (some (rs.current_frame + 1),
      { rs with current_frame := rs.current_frame + 1 }) := by
  unfold ReplayState.advance
  rw [hp]
  simp only [Bool.not_true, Bool.false_eq_true, if_false]
  rw [if_neg (by omega)]

/-- C6 counterexample. On a freshly loaded 3-frame playing engine,
`seek(2); advance()` returns absent and leaves the cursor at 2 — it does
not yield cursor `k + 1 = 3` as the claim states for every frame number. -/
theorem seek_advance_at_last_frame :
    rs3.playing = true ∧ rs3.total_frames = 3 ∧
    ((rs3.seek 2).advance).1 = none ∧ ((rs3.seek 2).advance).2.current_frame = 2 := by
  refine ⟨rfl, by decide, ?_, ?_⟩ <;> decide

/-- C6 (amended). `seek` clamps the cursor to `[0, total_frames − 1]`; on
a playing engine `seek(k); advance()` yields cursor `k + 1` whenever
`k + 1 < total_frames`, and otherwise (at or beyond the final frame)
returns absent, sets `playing := false` and leaves the cursor at the
clamped position; `seek(k); pause(); advance()` always returns absent and
leaves the whole state (in particular the clamped cursor) unchanged. -/
theorem seek_advance_pause_behaviour :
    (∀ (rs : ReplayState) (k : Nat),
      (rs.seek k).current_frame = min k (rs.total_frames - 1)) ∧
    (∀ (rs : ReplayState) (k : Nat), rs.playing = true → k + 1 < rs.total_frames →
      ((rs.seek k).advance).1 = some (k + 1) ∧
      ((rs.seek k).advance).2.current_frame = k + 1 ∧
      ((rs.seek k).advance).2.playing = true) ∧
    (∀ (rs : ReplayState) (k : Nat), rs.playing = true → rs.total_frames ≤ k + 1 →
      ((rs.seek k).advance).1 = none ∧
      ((rs.seek k).advance).2.playing = false ∧
      ((rs.seek k).advance).2.current_frame = min k (rs.total_frames - 1)) ∧
    (∀ (rs : ReplayState) (k : Nat),
      (((rs.seek k).pause).advance).1 = none ∧
      (((rs.seek k).pause).advance).2 = (rs.seek k).pause ∧
      (((rs.seek k).pause).advance).2.current_frame = min k (rs.total_frames - 1)) := by
  refine ⟨?_, ?_, ?_, ?_⟩
  · intro rs k; rfl
  · intro rs k hp hk
    have hmin : min k (rs.total_frames - 1) = k := by omega
    rw [seek_spec, hmin]
    have hcf : ({ rs with current_frame := k } : ReplayState).current_frame
        < ({ rs with current_frame := k } : ReplayState).total_frames - 1 := by
      show k < rs.total_frames - 1
      omega
    rw [advance_mid { rs with current_frame := k } hp hcf]
    exact ⟨rfl, rfl, hp⟩
  · intro rs k hp hk
    rw [seek_spec]
    have hcf : ({ rs with current_frame := min k (rs.total_frames - 1) } : ReplayState).total_frames - 1
        ≤ ({ rs with current_frame := min k (rs.total_frames - 1) } : ReplayState).current_frame := by
      show rs.total_frames - 1 ≤ min k (rs.total_frames - 1)
      omega
    rw [advance_at_end { rs with current_frame := min k (rs.total_frames - 1) } hp hcf]
    exact ⟨rfl, rfl, rfl⟩
  · intro rs k
    rw [show ((rs.seek k).pause) = { rs with current_frame := min k (rs.total_frames - 1), playing := false } from rfl,
      advance_not_playing _ rfl]
    exact ⟨rfl, rfl, rfl⟩

/-- Witness for the amended C6 at a concrete engine. -/
theorem seek_advance_pause_behaviour_witness :
    ((rs3.seek 1).advance).1 = some 2 ∧
    (((rs3.seek 1).pause).advance).1 = none := by
  refine ⟨(seek_advance_pause_behaviour.2.1 rs3 1 rfl (by decide)).1, ?_⟩
  exact (seek_advance_pause_behaviour.2.2.2 rs3 1).1

/-- Under `sample_region_wf`, reading any in-range index succeeds. -/
theorem read_sample_ok_of_lt (f : IbtFile) (hwf : sample_region_wf f)
    {i : Nat} (h : i < f.record_count) :
    f.read_sample i = .ok (decode_sample_vars
      ((f.bytes.drop (f.sample_data_offset + i * usizeOfInt f.header.buf_len)).take
        (usizeOfInt f.header.buf_len)) f.var_headers) := by
  unfold IbtFile.read_sample
  have hle : f.sample_data_offset + i * usizeOfInt f.header.buf_len
      + usizeOfInt f.header.buf_len ≤ f.bytes.length := by
    have h1 : (i + 1) * usizeOfInt f.header.buf_len
        ≤ f.record_count * usizeOfInt f.header.buf_len :=
      Nat.mul_le_mul_right _ (by omega)
    have := hwf
    unfold sample_region_wf at this
    calc f.sample_data_offset + i * usizeOfInt f.header.buf_len
          + usizeOfInt f.header.buf_len
        = f.sample_data_offset + (i + 1) * usizeOfInt f.header.buf_len := by ring
      _ ≤ f.sample_data_offset + f.record_count * usizeOfInt f.header.buf_len := by omega
      _ ≤ f.bytes.length := this
  rw [if_neg (by omega)]
  simp only [readExact_some_of_le hle]

/-- One driver iteration on a playing engine whose current frame reads
successfully: emit the cursor's frame, then advance. -/
theorem driver_step_of_read_ok (rs : ReplayState) (hp : rs.playing = true)
    {m : SampleMap} (hr : rs.ibt.read_sample rs.current_frame = .ok m) :
    driver_step rs = (some rs.current_frame, (rs.advance).2) := by
  unfold driver_step ReplayState.get_frame
  rw [hp]
  simp only [Bool.not_true, Bool.false_eq_true, if_false, hr, Except.map]

/-- C7 counterexample. On a freshly loaded playing 10-frame engine, the
driver iteration following `seek(5)` emits the frame read at index 5 (the
cursor is read, emitted, then advanced) — not frame 6 as the claim
states. -/
theorem driver_emits_cursor_after_seek :
    rs10.playing = true ∧
    (driver_step (rs10.seek 5)).1 = some 5 ∧ (5 : Nat) + 1 = 6 ∧
    (driver_step (rs10.seek 5)).1 ≠ some 6 := by
  refine ⟨rfl, rfl, rfl, ?_⟩
  intro h
  rw [show (driver_step (rs10.seek 5)).1 = some 5 from rfl] at h
  cases h

/-- C7 (amended). After `seek(k)` takes effect on a playing engine over a
well-formed recording, the next driver emission is the frame at the
clamped seek target `min k (total_frames − 1)` itself; the frame `k + 1`
is emitted by the iteration after that (when still in range). -/
theorem driver_first_emission_after_seek (rs : ReplayState) (k : Nat)
    (hp : rs.playing = true)
    (htot : rs.total_frames = rs.ibt.record_count)
    (hwf : sample_region_wf rs.ibt)
    (hpos : 0 < rs.total_frames) :
    (driver_step (rs.seek k)).1 = some (min k (rs.total_frames - 1)) ∧
    (min k (rs.total_frames - 1) + 1 < rs.total_frames →
      (driver_step ((driver_step (rs.seek k)).2)).1
        = some (min k (rs.total_frames - 1) + 1)) := by
  have hidx : min k (rs.total_frames - 1) < rs.ibt.record_count := by omega
  have hread := read_sample_ok_of_lt rs.ibt hwf hidx
  constructor
  · rw [driver_step_of_read_ok (rs.seek k) hp hread]
    rfl
  · intro hlt
    have hmin : min k (rs.total_frames - 1) = k := by omega
    have hidx2 : k + 1 < rs.ibt.record_count := by omega
    have hread2 := read_sample_ok_of_lt rs.ibt hwf hidx2
    have h1 : (driver_step (rs.seek k)).2 = ((rs.seek k).advance).2 := by
      rw [driver_step_of_read_ok (rs.seek k) hp hread]
    have h2 : (rs.seek k).advance = (some (k + 1), { rs with current_frame := k + 1 }) := by
      rw [seek_spec, hmin]
      have hcf : ({ rs with current_frame := k } : ReplayState).current_frame
          < ({ rs with current_frame := k } : ReplayState).total_frames - 1 := by
        show k < rs.total_frames - 1
        omega
      exact advance_mid { rs with current_frame := k } hp hcf
    rw [h1, h2]
    show (driver_step { rs with current_frame := k + 1 }).1
      = some (min k (rs.total_frames - 1) + 1)
    rw [hmin, driver_step_of_read_ok { rs with current_frame := k + 1 } hp hread2]

/-- Witness for the amended C7 at a concrete engine. -/
theorem driver_first_emission_after_seek_witness :
    (driver_step (rs10.seek 5)).1 = some (min 5 (rs10.total_frames - 1)) ∧
    (driver_step ((driver_step (rs10.seek 5)).2)).1
      = some (min 5 (rs10.total_frames - 1) + 1) := by
  have h := driver_first_emission_after_seek rs10 5 rfl (by decide)
    (by unfold sample_region_wf; decide) (by decide)
  exact ⟨h.1, h.2 (by decide)⟩

/-- Under `sample_region_wf`, a bulk read from an in-range start succeeds
and decodes, per position, exactly the per-sample byte slices. -/
theorem read_samples_range_ok (f : IbtFile) (hwf : sample_region_wf f)
    {start : Nat} (count : Nat) (h : start < f.record_count) :
    f.read_samples_range start count
      = .ok ((List.range (min count (f.record_count - start))).map
        (fun j => decode_sample_vars
          ((f.bytes.drop
              (f.sample_data_offset + (start + j) * usizeOfInt f.header.buf_len)).take
            (usizeOfInt f.header.buf_len)) f.var_headers)) := by
  unfold IbtFile.read_samples_range
  rw [if_neg (by omega)]
  set bl := usizeOfInt f.header.buf_len with hbl
  set n := min count (f.record_count - start) with hn
  by_cases hn0 : n = 0
  · rw [if_pos hn0, hn0]
    simp
  · rw [if_neg hn0]
    have hwf' : f.sample_data_offset + f.record_count * bl ≤ f.bytes.length := hwf
    have hle : f.sample_data_offset + start * bl + bl * n ≤ f.bytes.length := by
      have h1 : (start + n) * bl ≤ f.record_count * bl :=
        Nat.mul_le_mul_right _ (by omega)
      calc f.sample_data_offset + start * bl + bl * n
          = f.sample_data_offset + (start + n) * bl := by ring
        _ ≤ f.sample_data_offset + f.record_count * bl := by omega
        _ ≤ f.bytes.length := hwf'
    simp only [readExact_some_of_le hle]
    congr 1
    apply List.map_congr_left
    intro j hj
    have hjn : j < n := List.mem_range.mp hj
    congr 1
    have hblle : j * bl + bl ≤ bl * n := by
      have : (j + 1) * bl ≤ n * bl := Nat.mul_le_mul_right _ (by omega)
      calc j * bl + bl = (j + 1) * bl := by ring
        _ ≤ n * bl := this
        _ = bl * n := by ring
    rw [List.drop_take, List.take_take, min_eq_left (by omega), List.drop_drop]
    congr 1
    ring_nf

/-- C5. Over a well-formed parsed recording: `read_sample(i)` errors
exactly when `i ≥ record_count` (so `record_count − 1` succeeds and
`record_count` errors); `read_samples_range(start, count)` errors exactly
when `start ≥ record_count` and otherwise returns exactly
`min(count, record_count − start)` sample mappings in ascending index
order, the `j`-th being precisely the single read of index `start + j`.
The reads are pure functions of the recording: no recording state
changes in any case. -/
theorem read_bounds_behaviour (f : IbtFile) (hwf : sample_region_wf f) :
    (∀ i, i < f.record_count → ∃ m, f.read_sample i = .ok m) ∧
    (∀ i, f.record_count ≤ i → f.read_sample i = .error .outOfRange) ∧
    (∀ start count, f.record_count ≤ start →
      f.read_samples_range start count = .error .outOfRange) ∧
    (∀ start count, start < f.record_count →
      ∃ l, f.read_samples_range start count = .ok l ∧
        l.length = min count (f.record_count - start) ∧
        ∀ j (hj : j < l.length), f.read_sample (start + j) = .ok (l.get ⟨j, hj⟩)) := by
  refine ⟨?_, ?_, ?_, ?_⟩
  · intro i h
    exact ⟨_, read_sample_ok_of_lt f hwf h⟩
  · intro i h
    unfold IbtFile.read_sample
    rw [if_pos (by omega)]
  · intro start count h
    unfold IbtFile.read_samples_range
    rw [if_pos (by omega)]
  · intro start count h
    refine ⟨_, read_samples_range_ok f hwf count h, by simp, ?_⟩
    intro j hj
    simp only [List.length_map, List.length_range] at hj
    rw [read_sample_ok_of_lt f hwf (show start + j < f.record_count by omega)]
    congr 1
    simp [List.get_eq_getElem, List.getElem_map, List.getElem_range]

/-- Witness for C5 at a concrete 2-record recording. -/
theorem read_bounds_behaviour_witness :
    (∃ m, ibtFixture.read_sample 1 = .ok m) ∧
    ibtFixture.read_sample 2 = .error .outOfRange ∧
    ibtFixture.read_samples_range 2 5 = .error .outOfRange ∧
    (∃ l, ibtFixture.read_samples_range 0 5 = .ok l ∧ l.length = 2) := by
  have h := read_bounds_behaviour ibtFixture (by unfold sample_region_wf; decide)
  refine ⟨h.1 1 (by decide), h.2.1 2 (by decide), h.2.2.1 2 5 (by decide), ?_⟩
  obtain ⟨l, hl, hlen, _⟩ := h.2.2.2 0 5 (by decide)
  exact ⟨l, hl, by rw [hlen]; decide⟩

/-- Model of `Percentage::new` lands in `[0, 1]`. -/
theorem percentage_new_mem (x : ℚ) : 0 ≤ Percentage.new x ∧ Percentage.new x ≤ 1 := by
  unfold Percentage.new
  split_ifs with h1 h2
  · exact ⟨le_refl 0, by norm_num⟩
  · exact ⟨by norm_num, le_refl 1⟩
  · exact ⟨by linarith, by linarith⟩

/-- C8. Every percentage-typed field of a normalized frame lies in
`[0, 1]`, and `Percentage.new` — which clamps — is the enforcement point
(each such field is its image). -/
theorem percentage_fields_in_unit_interval :
    (∀ x : ℚ, 0 ≤ Percentage.new x ∧ Percentage.new x ≤ 1) ∧
    (∀ (info : IbtSessionInfo) (now : Nat) (sample : SampleMap) (v : VehicleData) (p : ℚ),
      (sample_to_frame info now sample).vehicle = some v →
      v.throttle = some p → 0 ≤ p ∧ p ≤ 1) ∧
    (∀ info now sample (v : VehicleData) (p : ℚ),
      (sample_to_frame info now sample).vehicle = some v →
      v.brake = some p → 0 ≤ p ∧ p ≤ 1) ∧
    (∀ info now sample (v : VehicleData) (p : ℚ),
      (sample_to_frame info now sample).vehicle = some v →
      v.clutch = some p → 0 ≤ p ∧ p ≤ 1) ∧
    (∀ info now sample (v : VehicleData) (p : ℚ),
      (sample_to_frame info now sample).vehicle = some v →
      v.steering_torque_pct = some p → 0 ≤ p ∧ p ≤ 1) ∧
    (∀ info now sample (e : EngineData) (p : ℚ),
      (sample_to_frame info now sample).engine = some e →
      e.oil_level = some p → 0 ≤ p ∧ p ≤ 1) ∧
    (∀ info now sample (e : EngineData) (p : ℚ),
      (sample_to_frame info now sample).engine = some e →
      e.fuel_level_pct = some p → 0 ≤ p ∧ p ≤ 1) ∧
    (∀ info now sample (t : TimingData) (p : ℚ),
      (sample_to_frame info now sample).timing = some t →
      t.lap_distance_pct = some p → 0 ≤ p ∧ p ≤ 1) ∧
    (∀ info now sample (w : WeatherData) (p : ℚ),
      (sample_to_frame info now sample).weather = some w →
      w.humidity = some p → 0 ≤ p ∧ p ≤ 1) ∧
    (∀ info now sample (w : WeatherData) (p : ℚ),
      (sample_to_frame info now sample).weather = some w →
      w.fog_level = some p → 0 ≤ p ∧ p ≤ 1) ∧
    (∀ info now sample (el : ElectronicsData) (p : ℚ),
      (sample_to_frame info now sample).electronics = some el →
      el.brake_bias = some p → 0 ≤ p ∧ p ≤ 1) ∧
    (∀ info now sample (wh : WheelData) (p : ℚ),
      (sample_to_frame info now sample).wheels = some wh →
      wh.front_left.tyre_wear = some p → 0 ≤ p ∧ p ≤ 1) ∧
    (∀ info now sample (wh : WheelData) (p : ℚ),
      (sample_to_frame info now sample).wheels = some wh →
      wh.front_right.tyre_wear = some p → 0 ≤ p ∧ p ≤ 1) ∧
    (∀ info now sample (wh : WheelData) (p : ℚ),
      (sample_to_frame info now sample).wheels = some wh →
      wh.rear_left.tyre_wear = some p → 0 ≤ p ∧ p ≤ 1) ∧
    (∀ info now sample (wh : WheelData) (p : ℚ),
      (sample_to_frame info now sample).wheels = some wh →
      wh.rear_right.tyre_wear = some p → 0 ≤ p ∧ p ≤ 1) := by
  refine ⟨percentage_new_mem, ?_, ?_, ?_, ?_, ?_, ?_, ?_, ?_, ?_, ?_, ?_, ?_, ?_, ?_⟩ <;>
  · intro info now sample v p hv hp
    simp only [sample_to_frame, stf_vehicle, stf_engine, stf_timing, stf_weather,
      stf_electronics, stf_wheels, Option.some.injEq] at hv
    subst hv
    obtain ⟨a, _, hfa⟩ := Option.map_eq_some'.mp hp
    rw [← hfa]
    exact percentage_new_mem _

/-- Witness for C8: a raw throttle of 2 is clamped into `[0, 1]`. -/
theorem percentage_fields_in_unit_interval_witness : 0 ≤ (1 : ℚ) ∧ (1 : ℚ) ≤ 1 :=
  percentage_fields_in_unit_interval.2.1 IbtSessionInfo.default 0 c8Sample _ 1 rfl (by decide)

/-- Propagation of an error through `Except` bind. -/
theorem except_bind_error {ε α β : Type} (e : ε) (f : α → Except ε β) :
    ((Except.error e : Except ε α) >>= f) = .error e := rfl

/-- Reduction of a successful `Except` bind. -/
theorem except_bind_ok {ε α β : Type} (a : α) (f : α → Except ε β) :
    ((Except.ok a : Except ε α) >>= f) = f a := rfl

/-- A value `exceptIsOk` accepts is an `.ok`. -/
theorem exceptIsOk_exists {ε α : Type} {x : Except ε α}
    (h : exceptIsOk x = true) : ∃ a, x = .ok a := by
  cases x with
  | ok a => exact ⟨a, rfl⟩
  | error e => exact absurd h (by simp [exceptIsOk])

/-- On a file shorter than 48 bytes, `read_header` fails. -/
theorem read_header_fail {bytes : List Nat} (h : bytes.length < 48) :
    read_header bytes = .error .ioError := by
  unfold read_header readExact
  rw [if_neg (by omega), if_neg (by omega)]

/-- On any file of at least 48 bytes, `read_header` succeeds, decoding
the ten fields at their fixed offsets. -/
theorem read_header_ok {bytes : List Nat} (h : 48 ≤ bytes.length) :
    read_header bytes = .ok
      { ver := hdrVer bytes
        status := i32OfLe (byteSlice (headerBuf bytes) 4 8)
        tick_rate := i32OfLe (byteSlice (headerBuf bytes) 8 12)
        session_info_update := i32OfLe (byteSlice (headerBuf bytes) 12 16)
        session_info_len := i32OfLe (byteSlice (headerBuf bytes) 16 20)
        session_info_offset := i32OfLe (byteSlice (headerBuf bytes) 20 24)
        num_vars := i32OfLe (byteSlice (headerBuf bytes) 24 28)
        var_header_offset := i32OfLe (byteSlice (headerBuf bytes) 28 32)
        num_buf := i32OfLe (byteSlice (headerBuf bytes) 32 36)
        buf_len := i32OfLe (byteSlice (headerBuf bytes) 36 40) } := by
  unfold read_header
  rw [readExact_some_of_le (show 0 + 48 ≤ bytes.length by omega)]
  rfl

/-- On a file shorter than 64 bytes, the buffer-descriptor read (16 bytes
at offset 48) fails. -/
theorem read_var_buf_fail {bytes : List Nat} (h : bytes.length < 64) :
    read_var_buf bytes = .error .ioError := by
  unfold read_var_buf readExact
  rw [if_neg (by omega), if_neg (by omega)]

/-- On any file of at least 64 bytes, the buffer-descriptor read
succeeds. -/
theorem read_var_buf_ok {bytes : List Nat} (h : 64 ≤ bytes.length) :
    read_var_buf bytes = .ok
      { tick_count := i32OfLe (byteSlice ((bytes.drop 48).take 16) 0 4)
        buf_offset := i32OfLe (byteSlice ((bytes.drop 48).take 16) 4 8) } := by
  unfold read_var_buf
  rw [readExact_some_of_le (show 48 + 16 ≤ bytes.length by omega)]

/-- On a file shorter than 144 bytes, the disk sub-header read (32 bytes
at offset 112) fails. -/
theorem read_disk_fail {bytes : List Nat} (h : bytes.length < 144) :
    read_disk_sub_header bytes = .error .ioError := by
  unfold read_disk_sub_header readExact
  rw [if_neg (by omega), if_neg (by omega)]

/-- On any file of at least 144 bytes, the disk sub-header read
succeeds. -/
theorem read_disk_ok {bytes : List Nat} (h : 144 ≤ bytes.length) :
    read_disk_sub_header bytes = .ok
      { session_start_date := i64OfLe (byteSlice ((bytes.drop 112).take 32) 0 8)
        session_start_time := decodeF64 (byteSlice ((bytes.drop 112).take 32) 8 16)
        session_end_time := decodeF64 (byteSlice ((bytes.drop 112).take 32) 16 24)
        session_lap_count := i32OfLe (byteSlice ((bytes.drop 112).take 32) 24 28)
        session_record_count := i32OfLe (byteSlice ((bytes.drop 112).take 32) 28 32) } := by
  unfold read_disk_sub_header
  rw [readExact_some_of_le (show 112 + 32 ≤ bytes.length by omega)]

/-- Any file missing one of the three fixed regions — shorter than 144
bytes — fails to open with the I/O read error, whichever of the header,
buffer-descriptor or sub-header reads falls short first. -/
theorem open_short {bytes : List Nat} (h : bytes.length < 144) :
    IbtFile.openFile bytes = .error .ioError := by
  by_cases h48 : bytes.length < 48
  · unfold IbtFile.openFile
    simp only [read_header_fail h48, except_bind_error]
  · by_cases h64 : bytes.length < 64
    · unfold IbtFile.openFile
      simp only [read_header_ok (show 48 ≤ bytes.length by omega), except_bind_ok,
        read_var_buf_fail h64, except_bind_error]
    · unfold IbtFile.openFile
      simp only [read_header_ok (show 48 ≤ bytes.length by omega),
        read_var_buf_ok (show 64 ≤ bytes.length by omega), except_bind_ok,
        read_disk_fail h, except_bind_error]

/-- On a file containing the three fixed regions, `openFile` reduces to
the variable-table read followed by the session-YAML read. -/
theorem open_unfolded {bytes : List Nat} (h : 144 ≤ bytes.length) :
    IbtFile.openFile bytes =
      (read_var_headers_from bytes (hdrBase bytes) 0 (hdrNumVars bytes)) >>=
        fun var_headers =>
          match readExact bytes (hdrSessOff bytes) (hdrSessLen bytes) with
          | none => .error .ioError
          | some yaml_buf =>
              .ok { bytes := bytes
                    header :=
                      { ver := hdrVer bytes
                        status := i32OfLe (byteSlice (headerBuf bytes) 4 8)
                        tick_rate := i32OfLe (byteSlice (headerBuf bytes) 8 12)
                        session_info_update := i32OfLe (byteSlice (headerBuf bytes) 12 16)
                        session_info_len := i32OfLe (byteSlice (headerBuf bytes) 16 20)
                        session_info_offset := i32OfLe (byteSlice (headerBuf bytes) 20 24)
                        num_vars := i32OfLe (byteSlice (headerBuf bytes) 24 28)
                        var_header_offset := i32OfLe (byteSlice (headerBuf bytes) 28 32)
                        num_buf := i32OfLe (byteSlice (headerBuf bytes) 32 36)
                        buf_len := i32OfLe (byteSlice (headerBuf bytes) 36 40) }
                    disk_sub_header :=
                      { session_start_date := i64OfLe (byteSlice ((bytes.drop 112).take 32) 0 8)
                        session_start_time := decodeF64 (byteSlice ((bytes.drop 112).take 32) 8 16)
                        session_end_time := decodeF64 (byteSlice ((bytes.drop 112).take 32) 16 24)
                        session_lap_count := i32OfLe (byteSlice ((bytes.drop 112).take 32) 24 28)
                        session_record_count :=
                          i32OfLe (byteSlice ((bytes.drop 112).take 32) 28 32) }
                    var_headers := var_headers
                    session_info_yaml := read_null_terminated_string yaml_buf
                    session_info :=
                      IbtSessionInfo.from_yaml (read_null_terminated_string yaml_buf)
                    sample_data_offset :=
                      usizeOfInt (i32OfLe (byteSlice ((bytes.drop 48).take 16) 4 8))
                    file_size := bytes.length } := by
  unfold IbtFile.openFile
  simp only [read_header_ok (show 48 ≤ bytes.length by omega),
    read_var_buf_ok (show 64 ≤ bytes.length by omega), read_disk_ok h, except_bind_ok]
  rfl

/-- If the first `k` variable-table entries from index `i` are all in
bounds with known type codes, the variable-table read succeeds. -/
theorem rvh_ok (bytes : List Nat) (base : Nat) :
    ∀ k i : Nat, (∀ j, j < k → goodEntry bytes base (i + j)) →
      exceptIsOk (read_var_headers_from bytes base i k) = true := by
  intro k
  induction k with
  | zero => intro i _; rfl
  | succ k ih =>
      intro i h
      have hg := h 0 (by omega)
      rw [Nat.add_zero] at hg
      obtain ⟨hc, hv⟩ := hg
      have hre : readExact bytes (base + 144 * i) 144 = some (entryBuf bytes base i) :=
        readExact_some_of_le (by omega)
      obtain ⟨vt, hvt⟩ := exceptIsOk_exists hv
      unfold entryCode at hvt
      obtain ⟨rest, hrest⟩ := exceptIsOk_exists (ih (i + 1) (fun j hj => by
        have hj1 := h (j + 1) (by omega)
        rwa [show i + (j + 1) = i + 1 + j by omega] at hj1))
      simp only [read_var_headers_from, hre, hvt, except_bind_ok, hrest, exceptIsOk]

/-- If the variable-table entries before relative index `j` are good but
entry `j`'s 144-byte region runs past the end of the file, the
variable-table read fails with the I/O error. -/
theorem rvh_incomplete (bytes : List Nat) (base : Nat) :
    ∀ j k i : Nat, j < k → (∀ m, m < j → goodEntry bytes base (i + m)) →
      ¬ entryComplete bytes base (i + j) →
      read_var_headers_from bytes base i k = .error .ioError := by
  intro j
  induction j with
  | zero =>
      intro k i hk hprev hnc
      obtain ⟨k, rfl⟩ : ∃ m, k = m + 1 := ⟨k - 1, by omega⟩
      rw [Nat.add_zero] at hnc
      have hre : readExact bytes (base + 144 * i) 144 = none := by
        unfold readExact
        rw [if_neg (by omega), if_neg (by omega)]
      simp only [read_var_headers_from, hre]
  | succ j ih =>
      intro k i hk hprev hnc
      obtain ⟨k, rfl⟩ : ∃ m, k = m + 1 := ⟨k - 1, by omega⟩
      have hg := hprev 0 (by omega)
      rw [Nat.add_zero] at hg
      obtain ⟨hc, hv⟩ := hg
      have hre : readExact bytes (base + 144 * i) 144 = some (entryBuf bytes base i) :=
        readExact_some_of_le (by omega)
      obtain ⟨vt, hvt⟩ := exceptIsOk_exists hv
      unfold entryCode at hvt
      have hrec := ih k (i + 1) (by omega)
        (fun m hm => by
          have h1 := hprev (m + 1) (by omega)
          rwa [show i + (m + 1) = i + 1 + m by omega] at h1)
        (by rw [show i + 1 + j = i + (j + 1) by omega]; exact hnc)
      simp only [read_var_headers_from, hre, hvt, except_bind_ok, hrec, except_bind_error]

/-- If the variable-table entries before relative index `j` are good and
entry `j` is in bounds but declares a type code `VarType::from_i32`
rejects, the variable-table read fails with that error. -/
theorem rvh_badcode (bytes : List Nat) (base : Nat) :
    ∀ j k i : Nat, ∀ e : IbtError, j < k →
      (∀ m, m < j → goodEntry bytes base (i + m)) →
      entryComplete bytes base (i + j) →
      VarType.from_i32 (entryCode bytes base (i + j)) = .error e →
      read_var_headers_from bytes base i k = .error e := by
  intro j
  induction j with
  | zero =>
      intro k i e hk hprev hc hbad
      obtain ⟨k, rfl⟩ : ∃ m, k = m + 1 := ⟨k - 1, by omega⟩
      rw [Nat.add_zero] at hc
      rw [Nat.add_zero] at hbad
      have hre : readExact bytes (base + 144 * i) 144 = some (entryBuf bytes base i) :=
        readExact_some_of_le (by omega)
      unfold entryCode at hbad
      simp only [read_var_headers_from, hre, hbad, except_bind_error]
  | succ j ih =>
      intro k i e hk hprev hc hbad
      obtain ⟨k, rfl⟩ : ∃ m, k = m + 1 := ⟨k - 1, by omega⟩
      have hg := hprev 0 (by omega)
      rw [Nat.add_zero] at hg
      obtain ⟨hc0, hv0⟩ := hg
      have hre : readExact bytes (base + 144 * i) 144 = some (entryBuf bytes base i) :=
        readExact_some_of_le (by omega)
      obtain ⟨vt, hvt⟩ := exceptIsOk_exists hv0
      unfold entryCode at hvt
      have hrec := ih k (i + 1) e (by omega)
        (fun m hm => by
          have h1 := hprev (m + 1) (by omega)
          rwa [show i + (m + 1) = i + 1 + m by omega] at h1)
        (by rw [show i + 1 + j = i + (j + 1) by omega]; exact hc)
        (by rw [show i + 1 + j = i + (j + 1) by omega]; exact hbad)
      simp only [read_var_headers_from, hre, hvt, except_bind_ok, hrec, except_bind_error]

/-- A variable-table failure propagates through `openFile`. -/
theorem open_err_of_rvh {bytes : List Nat} {e : IbtError} (h : 144 ≤ bytes.length)
    (he : read_var_headers_from bytes (hdrBase bytes) 0 (hdrNumVars bytes) = .error e) :
    IbtFile.openFile bytes = .error e := by
  rw [open_unfolded h, he, except_bind_error]

/-- A variable-table success followed by an out-of-bounds session-YAML
read makes `openFile` fail with the I/O error. -/
theorem open_yaml_fail {bytes : List Nat} {l : List VarHeader} (h : 144 ≤ bytes.length)
    (hok : read_var_headers_from bytes (hdrBase bytes) 0 (hdrNumVars bytes) = .ok l)
    (hy : readExact bytes (hdrSessOff bytes) (hdrSessLen bytes) = none) :
    IbtFile.openFile bytes = .error .ioError := by
  rw [open_unfolded h, hok, except_bind_ok, hy]

/-- A variable-table success followed by an in-bounds session-YAML read
makes `openFile` succeed, with the decoded version in the result. -/
theorem open_yaml_ok {bytes : List Nat} {l : List VarHeader} {yb : List Nat}
    (h : 144 ≤ bytes.length)
    (hok : read_var_headers_from bytes (hdrBase bytes) 0 (hdrNumVars bytes) = .ok l)
    (hy : readExact bytes (hdrSessOff bytes) (hdrSessLen bytes) = some yb) :
    ∃ f : IbtFile, IbtFile.openFile bytes = .ok f ∧ f.header.ver = hdrVer bytes := by
  rw [open_unfolded h, hok, except_bind_ok, hy]
  exact ⟨_, rfl, rfl⟩

/-- C4 counterexample. A syntactically valid file whose header version is
3 (≠ 2) opens successfully: `IbtFile::open` performs no version check, so
it does not fail with an unsupported-version error whenever the version
field is not 2. -/
theorem open_accepts_non_version_2 :
    openVer (testFileV 3) = some 3 ∧ (3 : Int) ≠ 2 := by
  exact ⟨rfl, by decide⟩

/-- C4 (amended). For every raw byte string, `IbtFile::open`'s outcome is
classified purely by region bounds and type codes, never by the version
field: (1) any file missing one of the three fixed regions — header,
buffer descriptor, disk sub-header, which together occupy the first 144
bytes — fails with the I/O read error; (2) past those, if the
variable-table entries before index `i < num_vars` are in bounds with
known type codes, then open fails with the I/O error when entry `i`'s
144-byte region runs past the end of the file, and fails with the
unknown-type error when that region is in bounds but its type code is
rejected; (3) if every declared entry is good but the declared
session-YAML region is non-empty and runs past the end of the file, open
fails with the I/O error; and (4) every structurally well-formed file —
whatever its version field holds — opens successfully, returning the
parsed recording carrying that version. -/
theorem open_failure_modes :
    (∀ bytes : List Nat, bytes.length < 144 →
      IbtFile.openFile bytes = .error .ioError) ∧
    (∀ (bytes : List Nat) (i : Nat), 144 ≤ bytes.length → i < hdrNumVars bytes →
      (∀ j, j < i → goodEntry bytes (hdrBase bytes) j) →
      (¬ entryComplete bytes (hdrBase bytes) i →
        IbtFile.openFile bytes = .error .ioError) ∧
      (∀ e : IbtError, entryComplete bytes (hdrBase bytes) i →
        VarType.from_i32 (entryCode bytes (hdrBase bytes) i) = .error e →
        IbtFile.openFile bytes = .error e)) ∧
    (∀ bytes : List Nat, 144 ≤ bytes.length →
      (∀ i, i < hdrNumVars bytes → goodEntry bytes (hdrBase bytes) i) →
      hdrSessLen bytes ≠ 0 → bytes.length < hdrSessOff bytes + hdrSessLen bytes →
      IbtFile.openFile bytes = .error .ioError) ∧
    (∀ bytes : List Nat, openWf bytes →
      ∃ f : IbtFile, IbtFile.openFile bytes = .ok f ∧ f.header.ver = hdrVer bytes) := by
  refine ⟨fun bytes h => open_short h, ?_, ?_, ?_⟩
  · intro bytes i h144 hi hprev
    constructor
    · intro hnc
      exact open_err_of_rvh h144
        (rvh_incomplete bytes (hdrBase bytes) i (hdrNumVars bytes) 0 hi
          (fun m hm => by rw [Nat.zero_add]; exact hprev m hm)
          (by rw [Nat.zero_add]; exact hnc))
    · intro e hc hbad
      exact open_err_of_rvh h144
        (rvh_badcode bytes (hdrBase bytes) i (hdrNumVars bytes) 0 e hi
          (fun m hm => by rw [Nat.zero_add]; exact hprev m hm)
          (by rw [Nat.zero_add]; exact hc)
          (by rw [Nat.zero_add]; exact hbad))
  · intro bytes h144 hgood hlen hshort
    obtain ⟨l, hok⟩ := exceptIsOk_exists
      (rvh_ok bytes (hdrBase bytes) (hdrNumVars bytes) 0
        (fun j hj => by rw [Nat.zero_add]; exact hgood j hj))
    have hy : readExact bytes (hdrSessOff bytes) (hdrSessLen bytes) = none := by
      unfold readExact
      rw [if_neg hlen, if_neg (by omega)]
    exact open_yaml_fail h144 hok hy
  · intro bytes hwf
    obtain ⟨h144, hgood, hsess⟩ := hwf
    obtain ⟨l, hok⟩ := exceptIsOk_exists
      (rvh_ok bytes (hdrBase bytes) (hdrNumVars bytes) 0
        (fun j hj => by rw [Nat.zero_add]; exact hgood j hj))
    rcases hsess with h0 | hle
    · have hy : readExact bytes (hdrSessOff bytes) (hdrSessLen bytes) = some [] := by
        unfold readExact
        rw [if_pos h0]
      exact open_yaml_ok h144 hok hy
    · exact open_yaml_ok h144 hok (readExact_some_of_le hle)

/-- Witness for the amended C4, one instance per clause: a 100-byte file
(whose buffer-descriptor and sub-header regions are missing) fails with
the I/O error; the bad-type fixture fails with unknown type code 6 at
entry 0; and the version-3 fixture is structurally well-formed and opens
successfully. -/
theorem open_failure_modes_witness :
    IbtFile.openFile (List.replicate 100 0) = .error .ioError ∧
    IbtFile.openFile badTypeFile = .error (.unknownVarType 6) ∧
    exceptIsOk (IbtFile.openFile (testFileV 3)) = true := by
  refine ⟨open_failure_modes.1 (List.replicate 100 0) (by decide), ?_, ?_⟩
  · exact (open_failure_modes.2.1 badTypeFile 0 (by decide) (by decide)
      (fun j hj => absurd hj (by omega))).2 (.unknownVarType 6) (by decide) (by rfl)
  · have hwf : openWf (testFileV 3) := by
      refine ⟨by decide, ?_, Or.inl (by decide)⟩
      intro i hi
      rw [show hdrNumVars (testFileV 3) = 0 from by decide] at hi
      exact absurd hi (by omega)
    obtain ⟨f, hf, -⟩ := open_failure_modes.2.2.2 (testFileV 3) hwf
    rw [hf]
    rfl

/-- C1 (code bug). The variable `LFtempCM` is read by `extract_wheel`
into the front-left wheel's `surface_temp_middle`, yet it is not in
`MAPPED_VARS`, so the same variable also leaks into extras under
`"iracing/LFtempCM"` — the mapped set is not in lockstep with what the
sections read. (`MAPPED_VARS` lists `LFtempCC`, `LFairPressure` and
`LFwear` instead of the names `LFtempCM`, `LFpressure` and `LFwearL`
actually read, for each of the four corners.) -/
theorem mapped_set_out_of_lockstep :
    MAPPED_VARS.contains "LFtempCM" = false ∧
    (sample_to_frame IbtSessionInfo.default 0 c1Sample).wheels.map
      (fun w => w.front_left.surface_temp_middle) = some (some 70) ∧
    mapGet (sample_to_frame IbtSessionInfo.default 0 c1Sample).extras "iracing/LFtempCM"
      = some (var_value_to_json (VarValue.float 70)) ∧
    MAPPED_VARS.contains "LFpressure" = false ∧
    MAPPED_VARS.contains "LFwearL" = false := by
  exact ⟨by decide, rfl, rfl, by decide, by decide⟩

/-- Membership in a conditional singleton segment. -/
theorem mem_ite_singleton {x s : String} {p : Prop} [Decidable p] :
    (x ∈ if p then [s] else ([] : List String)) ↔ p ∧ x = s := by
  split <;> simp_all

/-- C2. With no mask or an all-including mask the full frame is
serialized; with any other mask the projected JSON object's top-level
keys are exactly the header fields (`timestamp`, `game`, and `tick` when
present) plus each section key `S` iff `includes(S)` holds and the
unprojected frame's section `S` is populated (`Some`, respectively
non-empty for extras). -/
theorem projected_keys_exact :
    (∀ f : TelemetryFrame, to_json_filtered f none = .full) ∧
    (∀ (f : TelemetryFrame) (m : FieldMask), m.is_all = true →
      to_json_filtered f (some m) = .full) ∧
    (∀ (f : TelemetryFrame) (m : FieldMask) (ks : List String),
      m.include_all = false → to_json_filtered f (some m) = .projected ks →
      ("timestamp" ∈ ks ∧ "game" ∈ ks ∧ ("tick" ∈ ks ↔ f.tick.isSome = true) ∧
       ("motion" ∈ ks ↔ m.includes "motion" = true ∧ f.motion.isSome = true) ∧
       ("vehicle" ∈ ks ↔ m.includes "vehicle" = true ∧ f.vehicle.isSome = true) ∧
       ("engine" ∈ ks ↔ m.includes "engine" = true ∧ f.engine.isSome = true) ∧
       ("wheels" ∈ ks ↔ m.includes "wheels" = true ∧ f.wheels.isSome = true) ∧
       ("timing" ∈ ks ↔ m.includes "timing" = true ∧ f.timing.isSome = true) ∧
       ("session" ∈ ks ↔ m.includes "session" = true ∧ f.session.isSome = true) ∧
       ("weather" ∈ ks ↔ m.includes "weather" = true ∧ f.weather.isSome = true) ∧
       ("pit" ∈ ks ↔ m.includes "pit" = true ∧ f.pit.isSome = true) ∧
       ("electronics" ∈ ks ↔ m.includes "electronics" = true ∧ f.electronics.isSome = true) ∧
       ("damage" ∈ ks ↔ m.includes "damage" = true ∧ f.damage.isSome = true) ∧
       ("competitors" ∈ ks ↔ m.includes "competitors" = true ∧ f.competitors.isSome = true) ∧
       ("driver" ∈ ks ↔ m.includes "driver" = true ∧ f.driver.isSome = true) ∧
       ("extras" ∈ ks ↔ m.includes "extras" = true ∧ f.extras.isEmpty = false) ∧
       (∀ k ∈ ks, k ∈ topLevelKeys))) := by
  refine ⟨fun f => rfl, ?_, ?_⟩
  · intro f m h
    unfold to_json_filtered
    simp [FieldMask.is_all] at h
    simp [FieldMask.is_all, h]
  · intro f m ks hall hks
    unfold to_json_filtered at hks
    simp only [FieldMask.is_all, hall, Bool.false_eq_true, if_false] at hks
    obtain rfl : _ = ks := by injection hks
    refine ⟨?_, ?_, ?_, ?_, ?_, ?_, ?_, ?_, ?_, ?_, ?_, ?_, ?_, ?_, ?_, ?_, ?_⟩
    · simp
    · simp
    · simp [mem_ite_singleton, List.mem_append]
    · simp [mem_ite_singleton, List.mem_append]
    · simp [mem_ite_singleton, List.mem_append]
    · simp [mem_ite_singleton, List.mem_append]
    · simp [mem_ite_singleton, List.mem_append]
    · simp [mem_ite_singleton, List.mem_append]
    · simp [mem_ite_singleton, List.mem_append]
    · simp [mem_ite_singleton, List.mem_append]
    · simp [mem_ite_singleton, List.mem_append]
    · simp [mem_ite_singleton, List.mem_append]
    · simp [mem_ite_singleton, List.mem_append]
    · simp [mem_ite_singleton, List.mem_append]
    · simp [mem_ite_singleton, List.mem_append]
    · simp [mem_ite_singleton, List.mem_append]
    · intro k hk
      simp only [mem_ite_singleton, List.mem_append, List.mem_singleton,
        List.mem_cons, List.not_mem_nil, or_false, or_assoc] at hk
      have hname : k = "timestamp" ∨ k = "game" ∨ k = "tick" ∨ k = "motion" ∨
          k = "vehicle" ∨ k = "engine" ∨ k = "wheels" ∨ k = "timing" ∨
          k = "session" ∨ k = "weather" ∨ k = "pit" ∨ k = "electronics" ∨
          k = "damage" ∨ k = "competitors" ∨ k = "driver" ∨ k = "extras" := by
        tauto
      simp only [topLevelKeys, List.mem_cons, List.not_mem_nil, or_false]
      exact hname

/-- Witness for C2 at a concrete frame and the mask `"vehicle"`. -/
theorem projected_keys_exact_witness :
    ("vehicle" ∈ ["timestamp", "game", "vehicle"] ↔
      maskVehicle.includes "vehicle" = true ∧ frameFixture.vehicle.isSome = true) ∧
    "timestamp" ∈ ["timestamp", "game", "vehicle"] ∧
    ("session" ∈ ["timestamp", "game", "vehicle"] ↔
      maskVehicle.includes "session" = true ∧ frameFixture.session.isSome = true) := by
  have h := projected_keys_exact.2.2 frameFixture maskVehicle
    ["timestamp", "game", "vehicle"] rfl (by decide)
  exact ⟨h.2.2.2.2.1, h.1, h.2.2.2.2.2.2.2.2.1⟩
